import Mathlib

/-!
# Tizonia OpenMAX IL: processors of the HTTP source and the VP8 encoder, the file
reader and HTTP renderer components, the state machine seen by the VP8 decoder test,
the Vorbis decoding graph and the Deezer client

Shallow embedding of `plugins/http_source/src/httpsrcprc.c`,
`plugins/vp8_encoder/src/vp8eprc.c`, `tizcomps/file_reader/src/fr.c`, of the entry point
of `plugins/http_renderer/src/icer.c`, of the event handler and the transition steps of
`plugins/vp8_decoder/tests/check_vp8_decoder.c`, of `probe_uri` and
`set_vorbis_settings` of `examples/tplay/src/tizvorbisgraph.cc` and of
`get_current_track` of `clients/deezer/libtizdeezer/src/tizdeezer.cpp`.

Conventions of the embedding.

* A processor object is a record; a pointer field is an `Option` whose `none` is `NULL`.
  A buffer header that a processor holds is kept by value: while it is held nobody else
  writes to it, and the value handed back to the kernel is the one recorded by the release.
* Everything outside the processor (kernel, event loop, libcurl, allocator) is an
  environment `Env`: each answer is a function of the history of external calls made so
  far, so a theorem quantified over `Env` speaks about every behaviour of the collaborators.
  The calls themselves are appended to a trace, in program order.
* `assert` is compiled out (`NDEBUG`); every assertion of the source is kept as a comment at
  its place. Logging calls (`TIZ_TRACE`, `TIZ_DEBUG`, `TIZ_NOTICE`, `TIZ_ERROR`, `TIZ_LOG`)
  have no effect on the state and are left out.
* `size_t` is 64 bits wide, `OMX_U32` is 32 bits wide; both are `Nat` with explicit `%`.
-/

namespace Tizonia

/-! ## OpenMAX IL types -/

/-- The error codes of `OMX_ERRORTYPE` that the processors can see. Only `OMX_ErrorNone`
is zero. -/
inductive OMX_ERRORTYPE where
  | OMX_ErrorNone
  | OMX_ErrorInsufficientResources
  | OMX_ErrorUndefined
  | OMX_ErrorBadParameter
  | OMX_ErrorBadPortIndex
  | OMX_ErrorNotReady
  | OMX_ErrorTimeout
  | OMX_ErrorIncorrectStateOperation
  | OMX_ErrorIncorrectStateTransition
  | OMX_ErrorContentURIError
  deriving DecidableEq, Repr

open OMX_ERRORTYPE

/-- The fields of `OMX_BUFFERHEADERTYPE` that the processors read or write. `pBuffer` is the
address of the payload and identifies the header. -/
structure OMX_BUFFERHEADERTYPE where
  pBuffer : Nat
  nAllocLen : Nat
  nFilledLen : Nat
  nOffset : Nat
  nFlags : Nat
  deriving DecidableEq, Repr

/-- The content URI parameter: `nSize`, `nVersion.nVersion` and the `contentURI` text. -/
structure OMX_PARAM_CONTENTURITYPE where
  nSize : Nat
  nVersion : Nat
  contentURI : String
  deriving DecidableEq, Repr

/-- Modelled from the spec: the flag constant `OMX_BUFFERFLAG_EOS` of the OpenMAX IL headers
(not under src/), the end-of-stream bit of the flag set of a buffer header. -/
def OMX_BUFFERFLAG_EOS : Nat := 0x00000001

/-- Modelled from the spec: `OMX_VERSION` of the OpenMAX IL headers (not under src/); the
value is only stored. -/
def OMX_VERSION : Nat := 0x00000101

/-- Width of `size_t`. -/
def SIZE_T_MOD : Nat := 2 ^ 64

/-- Width of `OMX_U32`. -/
def OMX_U32_MOD : Nat := 2 ^ 32

/-! ## Constants of the event loop and of libcurl -/

/-- Modelled from the spec: `TIZ_EVENT_READ` of tizplatform (not under src/): interest in
read readiness. -/
def TIZ_EVENT_READ : Int := 1

/-- Modelled from the spec: `TIZ_EVENT_WRITE` of tizplatform (not under src/): interest in
write readiness. -/
def TIZ_EVENT_WRITE : Int := 2

/-- Modelled from the spec: `TIZ_EVENT_READ_OR_WRITE` of tizplatform (not under src/). -/
def TIZ_EVENT_READ_OR_WRITE : Int := 3

/-- The libcurl constant `CURL_CSELECT_IN`. -/
def CURL_CSELECT_IN : Nat := 1

/-- The libcurl constant `CURL_CSELECT_OUT`. -/
def CURL_CSELECT_OUT : Nat := 2

/-- The libcurl constant `CURL_SOCKET_TIMEOUT`. -/
def CURL_SOCKET_TIMEOUT : Int := -1

/-- The libcurl constants `CURLE_OK` and `CURLM_OK`. -/
def CURL_OK : Nat := 0

/-- Modelled from the spec: `ARATELIA_HTTP_SOURCE_PORT_INDEX` of httpsrc.h (not under
src/): the index of the only (output) port of the HTTP source. -/
def ARATELIA_HTTP_SOURCE_PORT_INDEX : Nat := 0

/-- Modelled from the spec: `ARATELIA_HTTP_SOURCE_COMPONENT_NAME` of httpsrc.h (not under
src/); the value is only passed to libcurl as the user agent. -/
def ARATELIA_HTTP_SOURCE_COMPONENT_NAME : String := "OMX.Aratelia.audio_source.http"

/-- The byte size requested by `obtain_uri`:
`sizeof(OMX_PARAM_CONTENTURITYPE) + PATH_MAX + NAME_MAX + 1`, the size of the structure
being the parameter `sz`. -/
def uri_param_size (sz : Nat) : Nat := sz + (4096 + 255) + 1

/-- The `sizeof(OMX_PARAM_CONTENTURITYPE)` used by the model. -/
def SIZEOF_CONTENTURI : Nat := 12

/-- The options given to `curl_easy_setopt` by `start_curl_handles`. -/
inductive CURLoption where
  | CURLOPT_PRIVATE
  | CURLOPT_USERAGENT
  | CURLOPT_HEADERFUNCTION
  | CURLOPT_WRITEHEADER
  | CURLOPT_WRITEFUNCTION
  | CURLOPT_WRITEDATA
  | CURLOPT_HTTP200ALIASES
  | CURLOPT_FOLLOWLOCATION
  | CURLOPT_NETRC
  | CURLOPT_MAXREDIRS
  | CURLOPT_FAILONERROR
  | CURLOPT_ERRORBUFFER
  | CURLOPT_NOPROGRESS
  | CURLOPT_CONNECTTIMEOUT
  | CURLOPT_URL
  | CURLOPT_HTTPHEADER
  deriving DecidableEq, Repr

/-- The options given to `curl_multi_setopt` by `start_curl_handles`. -/
inductive CURLMoption where
  | CURLMOPT_SOCKETFUNCTION
  | CURLMOPT_SOCKETDATA
  | CURLMOPT_TIMERFUNCTION
  | CURLMOPT_TIMERDATA
  deriving DecidableEq, Repr

/-! ## External calls and the environment -/

/-- One call from a processor to a collaborator, with the arguments that matter. -/
inductive Call where
  | tiz_event_io_init
  | tiz_event_io_set (ev : Option Nat) (fd : Int) (event : Int) (only_once : Bool)
  | tiz_event_io_start (ev : Option Nat)
  | tiz_event_io_stop (ev : Option Nat)
  | tiz_event_io_destroy (ev : Option Nat)
  | tiz_event_timer_init
  | tiz_event_timer_set (ev : Option Nat) (after : ℚ) (rep : ℚ)
  | tiz_event_timer_start (ev : Option Nat)
  | tiz_event_timer_restart (ev : Option Nat)
  | tiz_event_timer_stop (ev : Option Nat)
  | tiz_event_timer_destroy (ev : Option Nat)
  | tiz_mem_calloc (nmemb : Nat) (size : Nat)
  | tiz_mem_free (hadBlock : Bool)
  | tiz_api_GetParameter
  | tiz_krn_select (nports : Nat)
  | tiz_krn_claim_buffer (pid : Nat) (pos : Nat)
  | tiz_krn_release_buffer (pid : Nat) (hdr : OMX_BUFFERHEADERTYPE)
  | memcpy (dst : Option Nat) (n : Nat)
  | store (base : Option Nat) (idx : Nat)
  | curl_global_init
  | curl_global_cleanup
  | curl_easy_init
  | curl_easy_cleanup (h : Option Nat)
  | curl_multi_init
  | curl_multi_cleanup (h : Option Nat)
  | curl_slist_append (l : Option Nat) (s : String)
  | curl_slist_free_all (l : Option Nat)
  | curl_easy_setopt (opt : CURLoption)
  | curl_multi_setopt (opt : CURLMoption)
  | curl_multi_add_handle
  | curl_multi_socket_action (fd : Int) (ev_bitmask : Nat)
  deriving DecidableEq, Repr

/-- A callback that libcurl invokes while it runs inside one of its multi calls. -/
inductive CurlCback where
  | header (size nmemb : Nat)
  | write (size nmemb : Nat)
  | socket (s : Int) (action : Int)
  | timer (timeout_ms : Int)
  deriving DecidableEq, Repr

/-- The collaborators. Every answer depends on the history of calls, the call being answered
included (it is the last element of the history). -/
structure Env where
  /-- Result of a call that returns an `OMX_ERRORTYPE`. -/
  omx_rc : List Call → OMX_ERRORTYPE
  /-- Pointer returned by an allocating call; `none` is `NULL`. -/
  alloc : List Call → Option Nat
  /-- Header pointer that `tiz_krn_claim_buffer` stores through its out parameter. -/
  claim : List Call → Option OMX_BUFFERHEADERTYPE
  /-- Port set filled in by `tiz_krn_select`. -/
  select : List Call → Nat → Bool
  /-- The URI that `tiz_api_GetParameter` writes into the parameter structure. -/
  uri : List Call → String
  /-- Result of a libcurl call (`CURLcode` or `CURLMcode`); `CURL_OK` is success. -/
  curl_rc : List Call → Nat
  /-- Callbacks that libcurl invokes, in order, during a multi call. -/
  curl_cbacks : List Call → List CurlCback

/-- A processor together with the trace of the external calls made so far. -/
structure Sys (P : Type) where
  prc : P
  trace : List Call

/-- Record an external call. -/
def Sys.call {P : Type} (s : Sys P) (c : Call) : Sys P :=
  { s with trace := s.trace ++ [c] }

/-- Modelled from the spec: `tiz_check_omx_err` of tizplatform (not under src/): evaluate the
expression; when its result is not `OMX_ErrorNone`, return that result from the enclosing
function, otherwise go on. -/
def tiz_check_omx_err {P : Type} (r : OMX_ERRORTYPE × Sys P)
    (k : Sys P → OMX_ERRORTYPE × Sys P) : OMX_ERRORTYPE × Sys P :=
  if r.1 = OMX_ErrorNone then k r.2 else (r.1, r.2)

/-! ## The HTTP source processor: `httpsrcprc.c` -/

/-- The object `httpsrc_prc_t`, with the fields that `httpsrc_prc_ctor` initialises. -/
structure httpsrc_prc_t where
  p_outhdr_ : Option OMX_BUFFERHEADERTYPE
  p_uri_param_ : Option OMX_PARAM_CONTENTURITYPE
  eos_ : Bool
  port_disabled_ : Bool
  first_buffer_ : Bool
  p_ev_io_ : Option Nat
  sockfd_ : Int
  awaiting_io_ev_ : Bool
  p_ev_timer_ : Option Nat
  awaiting_timer_ev_ : Bool
  curl_timeout_ : ℚ
  p_curl_ : Option Nat
  p_curl_multi_ : Option Nat
  p_http_ok_aliases_ : Option Nat
  p_http_headers_ : Option Nat
  deriving DecidableEq, Repr

/-- State of the HTTP source: processor and trace. -/
abbrev HSys := Sys httpsrc_prc_t

/-- Replace the processor, keep the trace. -/
def Sys.set {P : Type} (s : Sys P) (p : P) : Sys P :=
  { s with prc := p }

/-- The function `start_io_watcher`. -/
def start_io_watcher (E : Env) (s : HSys) : OMX_ERRORTYPE × HSys :=
  -- assert (NULL != ap_prc); assert (NULL != ap_prc->p_ev_io_);
  let s1 := s.set { s.prc with awaiting_io_ev_ := true }
  let s2 := s1.call (Call.tiz_event_io_start s1.prc.p_ev_io_)
  (E.omx_rc s2.trace, s2)

/-- The function `stop_io_watcher`. -/
def stop_io_watcher (E : Env) (s : HSys) : OMX_ERRORTYPE × HSys :=
  -- assert (NULL != ap_prc);
  let r : OMX_ERRORTYPE × HSys :=
    if s.prc.p_ev_io_.isSome then
      let s1 := s.call (Call.tiz_event_io_stop s.prc.p_ev_io_)
      (E.omx_rc s1.trace, s1)
    else (OMX_ErrorNone, s)
  (r.1, r.2.set { r.2.prc with awaiting_io_ev_ := false })

/-- The function `start_timer_watcher`. -/
def start_timer_watcher (E : Env) (s : HSys) : OMX_ERRORTYPE × HSys :=
  -- assert (NULL != ap_prc); assert (NULL != ap_prc->p_ev_timer_);
  let s1 := s.set { s.prc with awaiting_timer_ev_ := true }
  let s2 := s1.call (Call.tiz_event_timer_set s1.prc.p_ev_timer_ s1.prc.curl_timeout_ 0)
  let s3 := s2.call (Call.tiz_event_timer_start s2.prc.p_ev_timer_)
  (E.omx_rc s3.trace, s3)

/-- The function `restart_timer_watcher`. -/
def restart_timer_watcher (E : Env) (s : HSys) : OMX_ERRORTYPE × HSys :=
  -- assert (NULL != ap_prc); assert (NULL != ap_prc->p_ev_timer_);
  let s1 := s.set { s.prc with awaiting_timer_ev_ := true }
  let s2 := s1.call (Call.tiz_event_timer_restart s1.prc.p_ev_timer_)
  (E.omx_rc s2.trace, s2)

/-- The function `stop_timer_watcher`. -/
def stop_timer_watcher (E : Env) (s : HSys) : OMX_ERRORTYPE × HSys :=
  -- assert (NULL != ap_prc);
  let r : OMX_ERRORTYPE × HSys :=
    if s.prc.p_ev_timer_.isSome then
      let s1 := s.call (Call.tiz_event_timer_stop s.prc.p_ev_timer_)
      (E.omx_rc s1.trace, s1)
    else (OMX_ErrorNone, s)
  (r.1, r.2.set { r.2.prc with awaiting_timer_ev_ := false })

/-- The index at which `curl_header_cback` writes the terminator: `(size * nmemb) - 2` in
`size_t` arithmetic. -/
def curl_header_cback_index (size nmemb : Nat) : Nat :=
  ((size * nmemb) % SIZE_T_MOD + SIZE_T_MOD - 2) % SIZE_T_MOD

/-- The function `curl_header_cback`: copy the header line into a scratch block of
`size * nmemb + 1` bytes, cut the newline, free the block; returns `size * nmemb`. -/
def curl_header_cback (E : Env) (size nmemb : Nat) (s : HSys) : Nat × HSys :=
  -- assert (NULL != p_prc);
  let n := (size * nmemb) % SIZE_T_MOD
  let s1 := s.call (Call.tiz_mem_calloc 1 ((n + 1) % SIZE_T_MOD))
  let p_info := E.alloc s1.trace
  let s2 := s1.call (Call.memcpy p_info n)
  let s3 := s2.call (Call.store p_info (curl_header_cback_index size nmemb))
  let s4 := s3.call (Call.tiz_mem_free p_info.isSome)
  (n, s4)

/-- The function `release_buffer`. -/
def release_buffer (E : Env) (s : HSys) : OMX_ERRORTYPE × HSys :=
  -- assert (NULL != ap_prc);
  match s.prc.p_outhdr_ with
  | some hdr =>
    let s1 := s.call (Call.tiz_krn_release_buffer 0 hdr)
    tiz_check_omx_err (E.omx_rc s1.trace, s1) fun s2 =>
      (OMX_ErrorNone, s2.set { s2.prc with p_outhdr_ := none })
  | none => (OMX_ErrorNone, s)

/-- The function `buffer_needed`; the result is the header pointer it returns. The out
parameter of `tiz_krn_claim_buffer` is `&ap_prc->p_outhdr_`, which is `NULL` at the call, so
storing the answer of the kernel covers a kernel that leaves it untouched. -/
def buffer_needed (E : Env) (s : HSys) : Option OMX_BUFFERHEADERTYPE × HSys :=
  -- assert (NULL != ap_prc);
  if !s.prc.port_disabled_ then
    match s.prc.p_outhdr_ with
    | some hdr => (some hdr, s)
    | none =>
      let s1 := s.call (Call.tiz_krn_claim_buffer ARATELIA_HTTP_SOURCE_PORT_INDEX 0)
      let s2 := s1.set { s1.prc with p_outhdr_ := E.claim s1.trace }
      if E.omx_rc s1.trace = OMX_ErrorNone then
        match s2.prc.p_outhdr_ with
        | some hdr => (some hdr, s2)
        | none => (none, s2)
      else (none, s2)
  else (none, s)

/-- The function `curl_write_cback`; the result is the `size_t` it returns to libcurl. -/
def curl_write_cback (E : Env) (size nmemb : Nat) (s : HSys) : Nat × HSys :=
  let nbytes := (size * nmemb) % SIZE_T_MOD
  -- assert (NULL != p_prc);
  if nbytes > 0 then
    let s1 := (stop_io_watcher E s).2
    let s2 := s1.call (Call.tiz_event_io_set s1.prc.p_ev_io_ s1.prc.sockfd_ TIZ_EVENT_READ true)
    let r := buffer_needed E s2
    match r.1 with
    | some p_out =>
      let s3 := r.2.call (Call.memcpy (some (p_out.pBuffer + p_out.nOffset)) nbytes)
      let s4 := s3.set { s3.prc with p_outhdr_ := some { p_out with nFilledLen := nbytes % OMX_U32_MOD } }
      (nbytes, (release_buffer E s4).2)
    | none => (nbytes, r.2)
  else (nbytes, s)

/-- The function `curl_socket_cback`; the result is the `int` it returns to libcurl. -/
def curl_socket_cback (E : Env) (sock : Int) (_action : Int) (s : HSys) : Int × HSys :=
  -- assert (NULL != p_prc);
  if s.prc.sockfd_ = -1 then
    let s1 := s.set { s.prc with sockfd_ := sock }
    let s2 := s1.call (Call.tiz_event_io_set s1.prc.p_ev_io_ sock TIZ_EVENT_READ_OR_WRITE true)
    (0, (start_io_watcher E s2).2)
  else (0, s)

/-- The function `curl_timer_cback`; the result is the `int` it returns to libcurl. The
quotient `(double) timeout_ms / (double) 1000` is kept exact, as a rational. -/
def curl_timer_cback (E : Env) (timeout_ms : Int) (s : HSys) : Int × HSys :=
  -- assert (NULL != p_prc);
  if timeout_ms < 0 then
    let s1 := (stop_timer_watcher E s).2
    (0, s1.set { s1.prc with curl_timeout_ := 0 })
  else
    let s1 := s.set { s.prc with curl_timeout_ := (timeout_ms : ℚ) / 1000 }
    (0, (start_timer_watcher E s1).2)

/-- The function `destroy_curl_resources`. -/
def destroy_curl_resources (s : HSys) : HSys :=
  -- assert (NULL != ap_prc);
  let s1 := s.call (Call.curl_slist_free_all s.prc.p_http_ok_aliases_)
  let s2 := s1.set { s1.prc with p_http_ok_aliases_ := none }
  let s3 := s2.call (Call.curl_slist_free_all s2.prc.p_http_headers_)
  let s4 := s3.set { s3.prc with p_http_headers_ := none }
  let s5 := s4.call (Call.curl_multi_cleanup s4.prc.p_curl_multi_)
  let s6 := s5.set { s5.prc with p_curl_multi_ := none }
  let s7 := s6.call (Call.curl_easy_cleanup s6.prc.p_curl_)
  s7.set { s7.prc with p_curl_ := none }

/-- The statement `bail_on_curl_error (expr)` (and `bail_on_curl_multi_error`), for a call
`c` without callbacks: when the call fails, `goto end` (the continuation `on_end`). -/
def bail_on_curl_error {α : Type} (E : Env) (c : Call) (on_end : HSys → α) (s : HSys)
    (k : HSys → α) : α :=
  let s1 := s.call c
  if E.curl_rc s1.trace = CURL_OK then k s1 else on_end s1

/-- The function `allocate_curl_global_resources`. -/
def allocate_curl_global_resources (E : Env) (s : HSys) : OMX_ERRORTYPE × HSys :=
  bail_on_curl_error E Call.curl_global_init
    (fun s1 => (OMX_ErrorInsufficientResources, s1)) s
    (fun s1 => (OMX_ErrorNone, s1))

/-- The statement `bail_on_oom (expr)`, where `expr` assigns the pointer returned by the
call `c` with `assign`: when the pointer is `NULL`, `goto end`. -/
def bail_on_oom {α : Type} (E : Env) (c : Call)
    (assign : httpsrc_prc_t → Option Nat → httpsrc_prc_t) (on_end : HSys → α) (s : HSys)
    (k : HSys → α) : α :=
  let s1 := s.call c
  let p := E.alloc s1.trace
  let s2 := s1.set (assign s1.prc p)
  if p.isSome then k s2 else on_end s2

/-- The function `allocate_curl_resources`. -/
def allocate_curl_resources (E : Env) (s : HSys) : OMX_ERRORTYPE × HSys :=
  -- assert (NULL == ap_prc->p_curl_); assert (NULL == ap_prc->p_curl_multi_);
  let on_end : HSys → OMX_ERRORTYPE × HSys := fun s1 =>
    -- end: rc is still OMX_ErrorInsufficientResources here, so the clean-up runs
    (OMX_ErrorInsufficientResources, destroy_curl_resources s1)
  tiz_check_omx_err (allocate_curl_global_resources E s) fun s1 =>
  -- tiz_check_null_ret_oom ((ap_prc->p_curl_ = curl_easy_init ()));
  bail_on_oom E Call.curl_easy_init (fun p h => { p with p_curl_ := h })
    (fun s2 => (OMX_ErrorInsufficientResources, s2)) s1 fun s2 =>
  bail_on_oom E Call.curl_multi_init (fun p h => { p with p_curl_multi_ := h }) on_end s2
    fun s3 =>
  bail_on_oom E (Call.curl_slist_append s3.prc.p_http_ok_aliases_ "ICY 200 OK")
    (fun p h => { p with p_http_ok_aliases_ := h }) on_end s3 fun s4 =>
  bail_on_oom E (Call.curl_slist_append s4.prc.p_http_headers_ "Icy-Metadata: 0")
    (fun p h => { p with p_http_headers_ := h }) on_end s4 fun s5 =>
  -- all ok: rc = OMX_ErrorNone; end: nothing to clean
  (OMX_ErrorNone, s5)

/-- Run the callbacks that libcurl invokes during a multi call, in order; what the callbacks
return goes to libcurl. -/
def run_cbacks (E : Env) : List CurlCback → HSys → HSys
  | [], s => s
  | CurlCback.header size nmemb :: rest, s => run_cbacks E rest (curl_header_cback E size nmemb s).2
  | CurlCback.write size nmemb :: rest, s => run_cbacks E rest (curl_write_cback E size nmemb s).2
  | CurlCback.socket sock action :: rest, s =>
    run_cbacks E rest (curl_socket_cback E sock action s).2
  | CurlCback.timer timeout_ms :: rest, s => run_cbacks E rest (curl_timer_cback E timeout_ms s).2

/-- A libcurl multi call `c`: libcurl runs the registered callbacks it wants to run and
returns its `CURLMcode`. -/
def curl_multi_call (E : Env) (c : Call) (s : HSys) : Nat × HSys :=
  let s1 := s.call c
  (E.curl_rc s1.trace, run_cbacks E (E.curl_cbacks s1.trace) s1)

/-- The libcurl function `curl_multi_socket_action`, as the processor sees it. -/
def curl_multi_socket_action (E : Env) (fd : Int) (ev_bitmask : Nat) (s : HSys) : Nat × HSys :=
  curl_multi_call E (Call.curl_multi_socket_action fd ev_bitmask) s

/-- The function `start_curl_handles`. -/
def start_curl_handles (E : Env) (s : HSys) : OMX_ERRORTYPE × HSys :=
  -- assert (NULL != ap_prc->p_curl_); assert (NULL != ap_prc->p_curl_multi_);
  let on_end : HSys → OMX_ERRORTYPE × HSys := fun s1 => (OMX_ErrorInsufficientResources, s1)
  bail_on_curl_error E (Call.curl_easy_setopt CURLoption.CURLOPT_PRIVATE) on_end s fun s =>
  bail_on_curl_error E (Call.curl_easy_setopt CURLoption.CURLOPT_USERAGENT) on_end s fun s =>
  bail_on_curl_error E (Call.curl_easy_setopt CURLoption.CURLOPT_HEADERFUNCTION) on_end s fun s =>
  bail_on_curl_error E (Call.curl_easy_setopt CURLoption.CURLOPT_WRITEHEADER) on_end s fun s =>
  bail_on_curl_error E (Call.curl_easy_setopt CURLoption.CURLOPT_WRITEFUNCTION) on_end s fun s =>
  bail_on_curl_error E (Call.curl_easy_setopt CURLoption.CURLOPT_WRITEDATA) on_end s fun s =>
  bail_on_curl_error E (Call.curl_easy_setopt CURLoption.CURLOPT_HTTP200ALIASES) on_end s fun s =>
  bail_on_curl_error E (Call.curl_easy_setopt CURLoption.CURLOPT_FOLLOWLOCATION) on_end s fun s =>
  bail_on_curl_error E (Call.curl_easy_setopt CURLoption.CURLOPT_NETRC) on_end s fun s =>
  bail_on_curl_error E (Call.curl_easy_setopt CURLoption.CURLOPT_MAXREDIRS) on_end s fun s =>
  bail_on_curl_error E (Call.curl_easy_setopt CURLoption.CURLOPT_FAILONERROR) on_end s fun s =>
  bail_on_curl_error E (Call.curl_easy_setopt CURLoption.CURLOPT_ERRORBUFFER) on_end s fun s =>
  bail_on_curl_error E (Call.curl_easy_setopt CURLoption.CURLOPT_NOPROGRESS) on_end s fun s =>
  bail_on_curl_error E (Call.curl_easy_setopt CURLoption.CURLOPT_CONNECTTIMEOUT) on_end s fun s =>
  bail_on_curl_error E (Call.curl_easy_setopt CURLoption.CURLOPT_URL) on_end s fun s =>
  bail_on_curl_error E (Call.curl_easy_setopt CURLoption.CURLOPT_HTTPHEADER) on_end s fun s =>
  bail_on_curl_error E (Call.curl_multi_setopt CURLMoption.CURLMOPT_SOCKETFUNCTION) on_end s
    fun s =>
  bail_on_curl_error E (Call.curl_multi_setopt CURLMoption.CURLMOPT_SOCKETDATA) on_end s fun s =>
  bail_on_curl_error E (Call.curl_multi_setopt CURLMoption.CURLMOPT_TIMERFUNCTION) on_end s
    fun s =>
  bail_on_curl_error E (Call.curl_multi_setopt CURLMoption.CURLMOPT_TIMERDATA) on_end s fun s =>
  -- bail_on_curl_multi_error (curl_multi_add_handle (...)): a multi call
  let r := curl_multi_call E Call.curl_multi_add_handle s
  if r.1 = CURL_OK then (OMX_ErrorNone, r.2) else on_end r.2

/-- The function `delete_uri`. -/
def delete_uri (s : HSys) : HSys :=
  -- assert (NULL != ap_prc);
  let s1 := s.call (Call.tiz_mem_free s.prc.p_uri_param_.isSome)
  s1.set { s1.prc with p_uri_param_ := none }

/-- The function `obtain_uri`. -/
def obtain_uri (E : Env) (s : HSys) : OMX_ERRORTYPE × HSys :=
  -- assert (NULL != ap_prc); assert (NULL == ap_prc->p_uri_param_);
  let s1 := s.call (Call.tiz_mem_calloc 1 (uri_param_size SIZEOF_CONTENTURI))
  match E.alloc s1.trace with
  | none => (OMX_ErrorInsufficientResources, s1.set { s1.prc with p_uri_param_ := none })
  | some _ =>
    let s2 := s1.call Call.tiz_api_GetParameter
    let rc := E.omx_rc s2.trace
    let param : OMX_PARAM_CONTENTURITYPE :=
      { nSize := uri_param_size SIZEOF_CONTENTURI
        nVersion := OMX_VERSION
        contentURI := if rc = OMX_ErrorNone then E.uri s2.trace else "" }
    (rc, s2.set { s2.prc with p_uri_param_ := some param })

/-- The function `allocate_events`. Each init call stores the watcher it made through its
out parameter. -/
def allocate_events (E : Env) (s : HSys) : OMX_ERRORTYPE × HSys :=
  -- assert (NULL != ap_prc); assert (NULL == ap_prc->p_ev_io_);
  -- assert (NULL == ap_prc->p_ev_timer_);
  let s1 := s.call Call.tiz_event_io_init
  let s2 := s1.set { s1.prc with p_ev_io_ := E.alloc s1.trace }
  tiz_check_omx_err (E.omx_rc s1.trace, s2) fun s2 =>
  let s3 := s2.call Call.tiz_event_timer_init
  let s4 := s3.set { s3.prc with p_ev_timer_ := E.alloc s3.trace }
  tiz_check_omx_err (E.omx_rc s3.trace, s4) fun s4 =>
  (OMX_ErrorNone, s4)

/-- The function `destroy_events`. -/
def destroy_events (s : HSys) : HSys :=
  -- assert (NULL != ap_prc);
  let s1 := s.call (Call.tiz_event_io_destroy s.prc.p_ev_io_)
  let s2 := s1.set { s1.prc with p_ev_io_ := none }
  let s3 := s2.call (Call.tiz_event_timer_destroy s2.prc.p_ev_timer_)
  s3.set { s3.prc with p_ev_timer_ := none }

/-- The function `httpsrc_prc_ctor`: the processor as constructed. -/
def httpsrc_prc_ctor : httpsrc_prc_t :=
  { p_outhdr_ := none
    p_uri_param_ := none
    eos_ := false
    port_disabled_ := false
    first_buffer_ := true
    p_ev_io_ := none
    sockfd_ := -1
    awaiting_io_ev_ := false
    p_ev_timer_ := none
    awaiting_timer_ev_ := false
    curl_timeout_ := 0
    p_curl_ := none
    p_curl_multi_ := none
    p_http_ok_aliases_ := none
    p_http_headers_ := none }

/-- The function `httpsrc_prc_allocate_resources`. -/
def httpsrc_prc_allocate_resources (E : Env) (s : HSys) : OMX_ERRORTYPE × HSys :=
  -- assert (NULL != p_prc); assert (NULL == p_prc->p_uri_param_);
  tiz_check_omx_err (obtain_uri E s) fun s1 =>
  tiz_check_omx_err (allocate_events E s1) fun s2 =>
  tiz_check_omx_err (allocate_curl_resources E s2) fun s3 =>
  (OMX_ErrorNone, s3)

/-- The function `httpsrc_prc_deallocate_resources`. -/
def httpsrc_prc_deallocate_resources (s : HSys) : OMX_ERRORTYPE × HSys :=
  let s1 := destroy_events s
  let s2 := destroy_curl_resources s1
  let s3 := delete_uri s2
  (OMX_ErrorNone, s3.call Call.curl_global_cleanup)

/-- The function `httpsrc_prc_prepare_to_transfer`. -/
def httpsrc_prc_prepare_to_transfer (s : HSys) : OMX_ERRORTYPE × HSys :=
  -- assert (NULL != ap_obj);
  (OMX_ErrorNone, s.set { s.prc with
    eos_ := false
    first_buffer_ := true
    sockfd_ := -1
    awaiting_io_ev_ := false
    awaiting_timer_ev_ := false
    curl_timeout_ := 0 })

/-- The function `httpsrc_prc_transfer_and_process`. -/
def httpsrc_prc_transfer_and_process (s : HSys) : OMX_ERRORTYPE × HSys :=
  (OMX_ErrorNone, s)

/-- The function `httpsrc_prc_stop_and_return`. -/
def httpsrc_prc_stop_and_return (E : Env) (s : HSys) : OMX_ERRORTYPE × HSys :=
  let s1 := (stop_io_watcher E s).2
  let s2 := (stop_timer_watcher E s1).2
  release_buffer E s2

/-- The statement `on_curl_multi_error_ret_omx_oom (expr)` for a multi call result `r`:
return `OMX_ErrorInsufficientResources` when the call failed. -/
def on_curl_multi_error_ret_omx_oom (r : Nat × HSys) (k : HSys → OMX_ERRORTYPE × HSys) :
    OMX_ERRORTYPE × HSys :=
  if r.1 = CURL_OK then k r.2 else (OMX_ErrorInsufficientResources, r.2)

/-- The function `httpsrc_prc_buffers_ready`. -/
def httpsrc_prc_buffers_ready (E : Env) (s : HSys) : OMX_ERRORTYPE × HSys :=
  -- assert (NULL != p_prc);
  if s.prc.first_buffer_ then
    tiz_check_omx_err (start_curl_handles E s) fun s1 =>
    -- assert (NULL != p_prc->p_curl_multi_);
    on_curl_multi_error_ret_omx_oom (curl_multi_socket_action E CURL_SOCKET_TIMEOUT 0 s1) fun s2 =>
    (OMX_ErrorNone, s2.set { s2.prc with first_buffer_ := false })
  else (OMX_ErrorNone, s)

/-- The value of `curl_ev_bitmask` that `httpsrc_prc_io_ready` computes from `a_events`. -/
def curl_ev_bitmask (a_events : Int) : Nat :=
  let m0 : Nat := 0
  let m1 := if TIZ_EVENT_READ = a_events ∨ TIZ_EVENT_READ_OR_WRITE = a_events
    then m0 ||| CURL_CSELECT_IN else m0
  if TIZ_EVENT_WRITE = a_events ∨ TIZ_EVENT_READ_OR_WRITE = a_events
    then m1 ||| CURL_CSELECT_OUT else m1

/-- The function `httpsrc_prc_io_ready`. -/
def httpsrc_prc_io_ready (E : Env) (a_fd : Int) (a_events : Int) (s : HSys) :
    OMX_ERRORTYPE × HSys :=
  -- assert (NULL != p_prc);
  if s.prc.awaiting_io_ev_ then
    tiz_check_omx_err (stop_io_watcher E s) fun s1 =>
    tiz_check_omx_err (restart_timer_watcher E s1) fun s2 =>
    on_curl_multi_error_ret_omx_oom
      (curl_multi_socket_action E a_fd (curl_ev_bitmask a_events) s2) fun s3 =>
    tiz_check_omx_err (start_io_watcher E s3) fun s4 =>
    (OMX_ErrorNone, s4)
  else (OMX_ErrorNone, s)

/-- The function `httpsrc_prc_timer_ready`. Its `ap_arg` is the processor itself: it is the
argument that `allocate_events` registered with `tiz_event_timer_init`. -/
def httpsrc_prc_timer_ready (E : Env) (s : HSys) : OMX_ERRORTYPE × HSys :=
  -- assert (NULL != p_prc);
  if s.prc.awaiting_timer_ev_ then
    tiz_check_omx_err (restart_timer_watcher E s) fun s1 =>
    on_curl_multi_error_ret_omx_oom (curl_multi_socket_action E CURL_SOCKET_TIMEOUT 0 s1) fun s2 =>
    (OMX_ErrorNone, s2)
  else (OMX_ErrorNone, s)

/-- The function `httpsrc_prc_pause`. -/
def httpsrc_prc_pause (s : HSys) : OMX_ERRORTYPE × HSys :=
  (OMX_ErrorNone, s)

/-- The function `httpsrc_prc_resume`. -/
def httpsrc_prc_resume (s : HSys) : OMX_ERRORTYPE × HSys :=
  (OMX_ErrorNone, s)

/-- The function `httpsrc_prc_port_flush`. -/
def httpsrc_prc_port_flush (E : Env) (_a_pid : Nat) (s : HSys) : OMX_ERRORTYPE × HSys :=
  -- assert (NULL != p_prc);
  release_buffer E s

/-- The function `httpsrc_prc_port_disable`. -/
def httpsrc_prc_port_disable (E : Env) (_a_pid : Nat) (s : HSys) : OMX_ERRORTYPE × HSys :=
  -- assert (NULL != p_prc);
  release_buffer E s

/-- The function `httpsrc_prc_port_enable`. -/
def httpsrc_prc_port_enable (_a_pid : Nat) (s : HSys) : OMX_ERRORTYPE × HSys :=
  (OMX_ErrorNone, s)

/-- The function `httpsrc_prc_dtor`, up to the destructor of the parent class. -/
def httpsrc_prc_dtor (s : HSys) : HSys :=
  (httpsrc_prc_deallocate_resources s).2

/-- The resource handles of the HTTP source, as NULL tests: `p_uri_param_`, `p_ev_io_`,
`p_ev_timer_`, `p_curl_`, `p_curl_multi_`, `p_http_ok_aliases_`, `p_http_headers_`. -/
def resources_null (p : httpsrc_prc_t) : Prop :=
  p.p_uri_param_ = none ∧ p.p_ev_io_ = none ∧ p.p_ev_timer_ = none ∧ p.p_curl_ = none ∧
    p.p_curl_multi_ = none ∧ p.p_http_ok_aliases_ = none ∧ p.p_http_headers_ = none

instance (p : httpsrc_prc_t) : Decidable (resources_null p) := by
  unfold resources_null
  exact inferInstance

/-- The four libcurl handles of the HTTP source are all `NULL`. -/
def curl_handles_null (p : httpsrc_prc_t) : Prop :=
  p.p_curl_ = none ∧ p.p_curl_multi_ = none ∧ p.p_http_ok_aliases_ = none ∧
    p.p_http_headers_ = none

instance (p : httpsrc_prc_t) : Decidable (curl_handles_null p) := by
  unfold curl_handles_null
  exact inferInstance

/-- The resource handles themselves, for comparing two processors. -/
def resource_handles (p : httpsrc_prc_t) :
    Option OMX_PARAM_CONTENTURITYPE × Option Nat × Option Nat × Option Nat × Option Nat ×
      Option Nat × Option Nat :=
  (p.p_uri_param_, p.p_ev_io_, p.p_ev_timer_, p.p_curl_, p.p_curl_multi_,
    p.p_http_ok_aliases_, p.p_http_headers_)

/-- The headers given back to the kernel in a trace, each with the port index of its
release, in order. -/
def releases : List Call → List (Nat × OMX_BUFFERHEADERTYPE)
  | [] => []
  | Call.tiz_krn_release_buffer pid hdr :: rest => (pid, hdr) :: releases rest
  | _ :: rest => releases rest

/-- An event that the scheduler delivers to the HTTP source while it is in Executing. -/
inductive Event where
  | buffers_ready
  | io_ready (a_fd : Int) (a_events : Int)
  | timer_ready
  deriving DecidableEq, Repr

/-- Deliver one event: call the hook of the processor. -/
def deliver (E : Env) : Event → HSys → OMX_ERRORTYPE × HSys
  | Event.buffers_ready, s => httpsrc_prc_buffers_ready E s
  | Event.io_ready a_fd a_events, s => httpsrc_prc_io_ready E a_fd a_events s
  | Event.timer_ready, s => httpsrc_prc_timer_ready E s

/-- Deliver the events of a list in order, whatever each hook returns. -/
def run_events (E : Env) : List Event → HSys → HSys
  | [], s => s
  | e :: rest, s => run_events E rest (deliver E e s).2

/-- The life of the HTTP source from Loaded to Idle, Executing, Idle and Loaded again, once
`httpsrc_prc_allocate_resources` has left the state `s1`: `prepare_to_transfer`, the events,
`stop_and_return`, `deallocate_resources`. The first component is the state before
`deallocate_resources`. -/
def round_trip_after_allocate (E : Env) (evs : List Event) (s1 : HSys) :
    HSys × (OMX_ERRORTYPE × HSys) :=
  let s2 := (httpsrc_prc_prepare_to_transfer s1).2
  let s3 := run_events E evs s2
  let s4 := (httpsrc_prc_stop_and_return E s3).2
  (s4, httpsrc_prc_deallocate_resources s4)

/-! ## The VP8 encoder processor: `vp8eprc.c` -/

/-- The object `vp8e_prc_t`, with the fields that `vp8e_proc_ctor` initialises. -/
structure vp8e_prc_t where
  pinhdr_ : Option OMX_BUFFERHEADERTYPE
  pouthdr_ : Option OMX_BUFFERHEADERTYPE
  eos_ : Bool
  deriving DecidableEq, Repr

/-- State of the VP8 encoder: processor and trace. -/
abbrev VSys := Sys vp8e_prc_t

/-- The function `vp8e_proc_ctor`: the processor as constructed. -/
def vp8e_proc_ctor : vp8e_prc_t :=
  { pinhdr_ := none, pouthdr_ := none, eos_ := false }

/-- The function `vp8e_proc_transform_buffer`. -/
def vp8e_proc_transform_buffer (s : VSys) : OMX_ERRORTYPE × VSys :=
  (OMX_ErrorNone, s)

/-- The function `vp8e_proc_allocate_resources`. -/
def vp8e_proc_allocate_resources (_a_pid : Nat) (s : VSys) : OMX_ERRORTYPE × VSys :=
  (OMX_ErrorNone, s)

/-- The function `vp8e_proc_deallocate_resources`. -/
def vp8e_proc_deallocate_resources (s : VSys) : OMX_ERRORTYPE × VSys :=
  (OMX_ErrorNone, s)

/-- The function `vp8e_proc_prepare_to_transfer`. -/
def vp8e_proc_prepare_to_transfer (_a_pid : Nat) (s : VSys) : OMX_ERRORTYPE × VSys :=
  (OMX_ErrorNone, s)

/-- The function `vp8e_proc_transfer_and_process`. -/
def vp8e_proc_transfer_and_process (_a_pid : Nat) (s : VSys) : OMX_ERRORTYPE × VSys :=
  (OMX_ErrorNone, s)

/-- The function `vp8e_proc_stop_and_return`. -/
def vp8e_proc_stop_and_return (s : VSys) : OMX_ERRORTYPE × VSys :=
  -- assert (ap_obj);
  (OMX_ErrorNone, s)

/-- Modelled from the spec: `tiz_check_omx_err` of tizplatform (not under src/) inside a
function that returns `bool`: the error code it returns is not zero, so the caller sees
`true`. -/
def tiz_check_omx_err_in_bool {P : Type} (r : OMX_ERRORTYPE × Sys P)
    (k : Sys P → Bool × Sys P) : Bool × Sys P :=
  if r.1 = OMX_ErrorNone then k r.2 else (true, r.2)

/-- The function `claim_input`. The out parameter of `tiz_krn_claim_buffer` is
`&p_obj->pinhdr_`, which is `NULL` at the only call site. -/
def claim_input (E : Env) (s : VSys) : Bool × VSys :=
  -- TIZ_PD_ZERO (&ports);
  let s1 := s.call (Call.tiz_krn_select 2)
  tiz_check_omx_err_in_bool (E.omx_rc s1.trace, s1) fun s1 =>
  -- We need one input buffers
  if E.select s1.trace 0 then
    let s2 := s1.call (Call.tiz_krn_claim_buffer 0 0)
    let s3 := s2.set { s2.prc with pinhdr_ := E.claim s2.trace }
    tiz_check_omx_err_in_bool (E.omx_rc s2.trace, s3) fun s3 =>
    (true, s3)
  else (false, s1)

/-- The function `claim_output`. The out parameter of `tiz_krn_claim_buffer` is
`&p_obj->pouthdr_`, which is `NULL` at the only call site. -/
def claim_output (E : Env) (s : VSys) : Bool × VSys :=
  -- TIZ_PD_ZERO (&ports);
  let s1 := s.call (Call.tiz_krn_select 2)
  tiz_check_omx_err_in_bool (E.omx_rc s1.trace, s1) fun s1 =>
  -- We need one output buffers
  if E.select s1.trace 1 then
    let s2 := s1.call (Call.tiz_krn_claim_buffer 1 0)
    let s3 := s2.set { s2.prc with pouthdr_ := E.claim s2.trace }
    tiz_check_omx_err_in_bool (E.omx_rc s2.trace, s3) fun s3 =>
    (true, s3)
  else (false, s1)

/-- How one pass through the body of the `while (1)` of `vp8e_proc_buffers_ready` ends. -/
inductive LoopStep where
  | again
  | brk
  | ret (rc : OMX_ERRORTYPE)
  deriving DecidableEq, Repr

/-- The last statement of the loop body of `vp8e_proc_buffers_ready`: give back an input
header that has been consumed. -/
def release_consumed_input (s : VSys) : VSys :=
  match s.prc.pinhdr_ with
  | some hdr =>
    if hdr.nFilledLen = 0 then
      let hdr1 := { hdr with nOffset := 0 }
      let s1 := s.call (Call.tiz_krn_release_buffer 0 hdr1)
      s1.set { s1.prc with pinhdr_ := none }
    else s
  | none => s

/-- The first statement of the loop body of `vp8e_proc_buffers_ready`: claim an input
header when none is held. The result is true when the statement leaves the loop (`break`). -/
def loop_claim_input (E : Env) (s : VSys) : Bool × VSys :=
  if s.prc.pinhdr_.isNone then
    let c := claim_input E s
    (!c.1 || c.2.prc.pinhdr_.isNone, c.2)
  else (false, s)

/-- The second statement of the loop body of `vp8e_proc_buffers_ready`: claim an output
header when none is held. The result is true when the statement leaves the loop (`break`). -/
def loop_claim_output (E : Env) (s : VSys) : Bool × VSys :=
  if s.prc.pouthdr_.isNone then
    let c := claim_output E s
    (!c.1, c.2)
  else (false, s)

/-- One pass through the body of the `while (1)` of `vp8e_proc_buffers_ready`. -/
def vp8e_loop_body (E : Env) (s : VSys) : LoopStep × VSys :=
  let r1 := loop_claim_input E s
  if r1.1 then (LoopStep.brk, r1.2)
  else
    let r2 := loop_claim_output E r1.2
    if r2.1 then (LoopStep.brk, r2.2)
    else
      -- tiz_check_omx_err (vp8e_proc_transform_buffer (ap_obj));
      let t := vp8e_proc_transform_buffer r2.2
      if t.1 = OMX_ErrorNone then (LoopStep.again, release_consumed_input t.2)
      else (LoopStep.ret t.1, t.2)

/-- The `while (1)` of `vp8e_proc_buffers_ready`, with a bound on the number of passes:
`none` when the bound is reached before the loop is left. -/
def vp8e_loop (E : Env) : Nat → VSys → Option (LoopStep × VSys)
  | 0, _ => none
  | fuel + 1, s =>
    match vp8e_loop_body E s with
    | (LoopStep.again, s1) => vp8e_loop E fuel s1
    | r => some r

/-- The end of `vp8e_proc_buffers_ready`, after the loop: propagate the end of stream. -/
def vp8e_propagate_eos (s : VSys) : OMX_ERRORTYPE × VSys :=
  match s.prc.pouthdr_ with
  | some hdr =>
    if s.prc.eos_ then
      let hdr1 := { hdr with nFlags := hdr.nFlags ||| OMX_BUFFERFLAG_EOS }
      let s1 := s.call (Call.tiz_krn_release_buffer 1 hdr1)
      (OMX_ErrorNone, s1.set { s1.prc with pouthdr_ := none })
    else (OMX_ErrorNone, s)
  | none => (OMX_ErrorNone, s)

/-- The function `vp8e_proc_buffers_ready`, the loop bounded by `fuel` passes: `none` when
the hook has not returned within the bound. -/
def vp8e_proc_buffers_ready (E : Env) (fuel : Nat) (s : VSys) : Option (OMX_ERRORTYPE × VSys) :=
  match vp8e_loop E fuel s with
  | none => none
  | some (LoopStep.ret rc, s1) => some (rc, s1)
  | some (_, s1) => some (vp8e_propagate_eos s1)

/-! ## Concrete environments and states -/

/-- An environment in which every call succeeds, every allocation returns a fresh block,
libcurl invokes no callback and the kernel has no header to give. -/
def env_ok : Env :=
  { omx_rc := fun _ => OMX_ErrorNone
    alloc := fun tr => some (tr.length + 1)
    claim := fun _ => none
    select := fun _ _ => false
    uri := fun _ => "http://example.org/stream"
    curl_rc := fun _ => CURL_OK
    curl_cbacks := fun _ => [] }

/-- An output header of 4096 bytes, empty. -/
def hdr_out : OMX_BUFFERHEADERTYPE :=
  { pBuffer := 4096, nAllocLen := 4096, nFilledLen := 0, nOffset := 0, nFlags := 0 }

/-- The HTTP source as constructed, no call made yet. -/
def httpsrc_initial : HSys :=
  { prc := httpsrc_prc_ctor, trace := [] }

/-- The HTTP source holding the header `hdr_out`, both watchers allocated and awaited. -/
def httpsrc_holding : HSys :=
  { prc := { httpsrc_prc_ctor with
      p_outhdr_ := some hdr_out
      p_ev_io_ := some 1
      p_ev_timer_ := some 2
      awaiting_io_ev_ := true
      awaiting_timer_ev_ := true
      first_buffer_ := false }
    trace := [] }

/-- What a hook that gives the held header back must hand to the kernel: the header held
in `p_outhdr_`, on port 0, once; nothing when no header is held. -/
def held_release (p : httpsrc_prc_t) : List (Nat × OMX_BUFFERHEADERTYPE) :=
  match p.p_outhdr_ with
  | some hdr => [(0, hdr)]
  | none => []

/-- The VP8 encoder as constructed, no call made yet. -/
def vp8e_initial : VSys :=
  { prc := vp8e_proc_ctor, trace := [] }

/-- An input header that carries 5 bytes of data. -/
def hdr_in_data : OMX_BUFFERHEADERTYPE :=
  { pBuffer := 8192, nAllocLen := 4096, nFilledLen := 5, nOffset := 0, nFlags := 0 }

/-- An input header without data that carries the end-of-stream flag. -/
def hdr_in_eos : OMX_BUFFERHEADERTYPE :=
  { pBuffer := 12288, nAllocLen := 4096, nFilledLen := 0, nOffset := 0,
    nFlags := OMX_BUFFERFLAG_EOS }

/-- A kernel that answers `tiz_krn_claim_buffer` with `hin` on port 0 and with `hout` on
any other port. -/
def claim_by_port (hin hout : OMX_BUFFERHEADERTYPE) (tr : List Call) :
    Option OMX_BUFFERHEADERTYPE :=
  match tr.getLast? with
  | some (Call.tiz_krn_claim_buffer pid _) => if pid = 0 then some hin else some hout
  | _ => none

/-- An environment for the VP8 encoder: both ports always have a header ready, the input
header carries data, every call succeeds. -/
def env_busy : Env :=
  { env_ok with
    select := fun _ _ => true
    claim := claim_by_port hdr_in_data hdr_out }

/-- An environment for the VP8 encoder: only the input port has a header ready (one that
carries data), every call succeeds. -/
def env_input_only : Env :=
  { env_ok with
    select := fun _ pid => decide (pid = 0)
    claim := claim_by_port hdr_in_data hdr_out }

/-- An environment for the VP8 encoder: the output port has a header ready, the input port
has exactly one header, which is empty and carries the end-of-stream flag; every call
succeeds. -/
def env_eos : Env :=
  { env_ok with
    select := fun tr pid => decide (pid = 1) || !(tr.contains (Call.tiz_krn_claim_buffer 0 0))
    claim := claim_by_port hdr_in_eos hdr_out }

/-- The VP8 encoder after `vp8e_proc_buffers_ready` has claimed `hdr_in_data` and found no
output header. -/
def vp8e_holding_input : VSys :=
  { prc := { pinhdr_ := some hdr_in_data, pouthdr_ := none, eos_ := false }
    trace := [Call.tiz_krn_select 2, Call.tiz_krn_claim_buffer 0 0, Call.tiz_krn_select 2] }

/-- The HTTP source in Executing, in the middle of a transfer: resources allocated, the
transfer started on socket 5, the io watcher awaited, no header held. -/
def httpsrc_executing : HSys :=
  { prc :=
      { p_outhdr_ := none
        p_uri_param_ := some { nSize := uri_param_size SIZEOF_CONTENTURI, nVersion := OMX_VERSION,
                               contentURI := "http://example.org/stream" }
        eos_ := false
        port_disabled_ := false
        first_buffer_ := false
        p_ev_io_ := some 1
        sockfd_ := 5
        awaiting_io_ev_ := true
        p_ev_timer_ := some 2
        awaiting_timer_ev_ := true
        curl_timeout_ := 0
        p_curl_ := some 3
        p_curl_multi_ := some 4
        p_http_ok_aliases_ := some 5
        p_http_headers_ := some 6 }
    trace := [] }

/-- An environment for the HTTP source: every call succeeds and the kernel answers every
claim with the empty 4096-byte header `hdr_out`. -/
def env_claim_out : Env :=
  { env_ok with claim := fun _ => some hdr_out }

/-- The fields of the HTTP source that no watcher function and no libcurl callback writes:
the resource handles, `first_buffer_`, `port_disabled_` and `eos_`. -/
def frozen (p : httpsrc_prc_t) :
    (Option OMX_PARAM_CONTENTURITYPE × Option Nat × Option Nat × Option Nat × Option Nat ×
      Option Nat × Option Nat) × Bool × Bool × Bool :=
  (resource_handles p, p.first_buffer_, p.port_disabled_, p.eos_)

/-- The HTTP source in Executing before its first buffer event: resources allocated,
`httpsrc_prc_prepare_to_transfer` done. -/
def httpsrc_prepared : HSys :=
  { prc := { httpsrc_executing.prc with
      first_buffer_ := true
      sockfd_ := -1
      awaiting_io_ev_ := false
      awaiting_timer_ev_ := false }
    trace := [] }

/-- An environment in which every libcurl call fails with `CURLE_FAILED_INIT` (2) and
every other call succeeds. -/
def env_curl_fails : Env :=
  { env_ok with curl_rc := fun _ => 2 }

/-- An environment for the HTTP source in which a transfer runs: every call succeeds, the
kernel answers every claim with `hdr_out`, and during each `curl_multi_socket_action`
libcurl registers socket 5, sets a timeout of 100 ms, passes a header line of 17 bytes and
writes 100 bytes of payload. -/
def env_transfer : Env :=
  { env_claim_out with
    curl_cbacks := fun tr =>
      match tr.getLast? with
      | some (Call.curl_multi_socket_action _ _) =>
        [CurlCback.socket 5 1, CurlCback.timer 100, CurlCback.header 1 17,
          CurlCback.write 1 100]
      | _ => [] }

/-- The events of a short transfer. -/
def events_transfer : List Event :=
  [Event.buffers_ready, Event.io_ready 5 TIZ_EVENT_READ, Event.timer_ready,
    Event.io_ready 5 TIZ_EVENT_READ_OR_WRITE, Event.buffers_ready]

/-- The releases of a trace made on port `pid`. -/
def releases_on (pid : Nat) (tr : List Call) : List (Nat × OMX_BUFFERHEADERTYPE) :=
  (releases tr).filter fun x => x.1 = pid

/-- Nothing happened for the end of stream between `s` and `t`: `eos_` is the same and no
release was made on port 1. -/
def no_eos_step (s t : VSys) : Prop :=
  t.prc.eos_ = s.prc.eos_ ∧ releases_on 1 t.trace = releases_on 1 s.trace

/-- The calls of `start_curl_handles` that come before `curl_multi_add_handle`, in program
order. -/
def start_curl_setopts : List Call :=
  [Call.curl_easy_setopt CURLoption.CURLOPT_PRIVATE,
    Call.curl_easy_setopt CURLoption.CURLOPT_USERAGENT,
    Call.curl_easy_setopt CURLoption.CURLOPT_HEADERFUNCTION,
    Call.curl_easy_setopt CURLoption.CURLOPT_WRITEHEADER,
    Call.curl_easy_setopt CURLoption.CURLOPT_WRITEFUNCTION,
    Call.curl_easy_setopt CURLoption.CURLOPT_WRITEDATA,
    Call.curl_easy_setopt CURLoption.CURLOPT_HTTP200ALIASES,
    Call.curl_easy_setopt CURLoption.CURLOPT_FOLLOWLOCATION,
    Call.curl_easy_setopt CURLoption.CURLOPT_NETRC,
    Call.curl_easy_setopt CURLoption.CURLOPT_MAXREDIRS,
    Call.curl_easy_setopt CURLoption.CURLOPT_FAILONERROR,
    Call.curl_easy_setopt CURLoption.CURLOPT_ERRORBUFFER,
    Call.curl_easy_setopt CURLoption.CURLOPT_NOPROGRESS,
    Call.curl_easy_setopt CURLoption.CURLOPT_CONNECTTIMEOUT,
    Call.curl_easy_setopt CURLoption.CURLOPT_URL,
    Call.curl_easy_setopt CURLoption.CURLOPT_HTTPHEADER,
    Call.curl_multi_setopt CURLMoption.CURLMOPT_SOCKETFUNCTION,
    Call.curl_multi_setopt CURLMoption.CURLMOPT_SOCKETDATA,
    Call.curl_multi_setopt CURLMoption.CURLMOPT_TIMERFUNCTION,
    Call.curl_multi_setopt CURLMoption.CURLMOPT_TIMERDATA]

/-- Every call of the list, made in order on top of the trace `tr`, is answered
`CURL_OK`. -/
def all_curl_ok (E : Env) : List Call → List Call → Bool
  | [], _ => true
  | c :: cs, tr => decide (E.curl_rc (tr ++ [c]) = CURL_OK) && all_curl_ok E cs (tr ++ [c])

/-- All libcurl calls of `start_curl_handles` succeed when made from the state `s`: the
twenty option calls and `curl_multi_add_handle`. -/
def start_curl_all_ok (E : Env) (s : HSys) : Bool :=
  all_curl_ok E start_curl_setopts s.trace &&
    decide (E.curl_rc (s.trace ++ start_curl_setopts ++ [Call.curl_multi_add_handle]) = CURL_OK)

/-- All libcurl calls of `allocate_curl_resources` succeed when made from the state `s`:
`curl_global_init` returns `CURLE_OK` and `curl_easy_init`, `curl_multi_init` and the two
`curl_slist_append` return a pointer that is not `NULL`. -/
def allocate_curl_all_ok (E : Env) (s : HSys) : Bool :=
  let t1 := s.trace ++ [Call.curl_global_init]
  let t2 := t1 ++ [Call.curl_easy_init]
  let t3 := t2 ++ [Call.curl_multi_init]
  let t4 := t3 ++ [Call.curl_slist_append s.prc.p_http_ok_aliases_ "ICY 200 OK"]
  let t5 := t4 ++ [Call.curl_slist_append s.prc.p_http_headers_ "Icy-Metadata: 0"]
  decide (E.curl_rc t1 = CURL_OK) && (E.alloc t2).isSome && (E.alloc t3).isSome &&
    (E.alloc t4).isSome && (E.alloc t5).isSome

/-- An environment in which `curl_slist_append` returns `NULL` and every other call
succeeds. -/
def env_append_fails : Env :=
  { env_ok with
    alloc := fun tr =>
      match tr.getLast? with
      | some (Call.curl_slist_append _ _) => none
      | _ => some (tr.length + 1) }

/-- The HTTP source in the middle of a transfer, as `httpsrc_executing`, holding the
header `hdr_out`. -/
def httpsrc_executing_holding : HSys :=
  { prc := { httpsrc_executing.prc with p_outhdr_ := some hdr_out }
    trace := [] }

/-- The headers a VP8 encoder owes to the kernel, by the address that identifies each:
the one claimed from port 0 and the one claimed from port 1. -/
abbrev Owed := Option Nat × Option Nat

/-- The headers the processor holds: `pinhdr_` is owed to port 0, `pouthdr_` to port 1. -/
def owed_of (p : vp8e_prc_t) : Owed :=
  (p.pinhdr_.map (fun h => h.pBuffer), p.pouthdr_.map (fun h => h.pBuffer))

/-- The port discipline of the VP8 encoder, checked on one call made after the history
`hist`: a claim on port 0 (port 1) is made only while no input (output) header is held and
the header the kernel stores becomes the input (output) header; a release on port 0
(port 1) gives back the input (output) header that is held, after which none is held; no
other port is claimed from or released to. `none` when the call breaks the discipline. -/
def replay_call (E : Env) (hist : List Call) (c : Call) (o : Owed) : Option Owed :=
  match c with
  | Call.tiz_krn_claim_buffer pid _ =>
    if pid = 0 then
      if o.1 = none then some ((E.claim (hist ++ [c])).map (fun h => h.pBuffer), o.2) else none
    else if pid = 1 then
      if o.2 = none then some (o.1, (E.claim (hist ++ [c])).map (fun h => h.pBuffer)) else none
    else none
  | Call.tiz_krn_release_buffer pid hdr =>
    if pid = 0 then
      if o.1 = some hdr.pBuffer then some (none, o.2) else none
    else if pid = 1 then
      if o.2 = some hdr.pBuffer then some (o.1, none) else none
    else none
  | _ => some o

/-- The port discipline checked on the calls `calls` made in order after `hist`. -/
def replay (E : Env) : List Call → List Call → Owed → Option Owed
  | _, [], o => some o
  | hist, c :: rest, o =>
    match replay_call E hist c o with
    | none => none
    | some o1 => replay E (hist ++ [c]) rest o1

/-- Between the states `s` and `t` the VP8 encoder only added calls to the trace, and the
added calls keep the port discipline and account for the headers held in `t`. -/
def disciplined (E : Env) (s t : VSys) : Prop :=
  ∃ d : List Call, t.trace = s.trace ++ d ∧
    replay E s.trace d (owed_of s.prc) = some (owed_of t.prc)

/-- The VP8 encoder after `vp8e_proc_buffers_ready` in the environment `env_eos`: the input
header was claimed and released, the output header is held. -/
def vp8e_after_eos : VSys :=
  { prc := { pinhdr_ := none, pouthdr_ := some hdr_out, eos_ := false }
    trace := [Call.tiz_krn_select 2, Call.tiz_krn_claim_buffer 0 0,
      Call.tiz_krn_select 2, Call.tiz_krn_claim_buffer 1 0,
      Call.tiz_krn_release_buffer 0 hdr_in_eos, Call.tiz_krn_select 2] }

/-! ## The file reader component: `fr.c` -/

/-- The port domains of `OMX_PORTDOMAINTYPE`. -/
inductive OMX_PORTDOMAINTYPE where
  | OMX_PortDomainAudio
  | OMX_PortDomainVideo
  | OMX_PortDomainImage
  | OMX_PortDomainOther
  deriving DecidableEq, Repr

/-- The port directions of `OMX_DIRTYPE`. -/
inductive OMX_DIRTYPE where
  | OMX_DirInput
  | OMX_DirOutput
  deriving DecidableEq, Repr

/-- The buffer supplier settings of `OMX_BUFFERSUPPLIERTYPE`. -/
inductive OMX_BUFFERSUPPLIERTYPE where
  | OMX_BufferSupplyUnspecified
  | OMX_BufferSupplyInput
  | OMX_BufferSupplyOutput
  deriving DecidableEq, Repr

/-- Modelled from the spec: the type `tiz_port_options_t` of tizport.h (not under src/).
The fields are in the order of the initialisers in `fr.c` and carry the port attributes of
the spec: domain type, direction, minimum buffer count, minimum buffer size, contiguity,
alignment, supplier preference; then the memory hooks and the master-or-slave port. -/
structure tiz_port_options_t where
  domain : OMX_PORTDOMAINTYPE
  dir : OMX_DIRTYPE
  min_buf_count : Nat
  min_buf_size : Nat
  contiguous : Bool
  alignment : Nat
  buf_supplier : OMX_BUFFERSUPPLIERTYPE
  mem_hooks : Option Nat × Option Nat × Option Nat
  mos_port : Int
  deriving DecidableEq, Repr

/-- The constant `ARATELIA_FILE_READER_AUDIO_READER_ROLE`. -/
def ARATELIA_FILE_READER_AUDIO_READER_ROLE : String := "audio_reader.binary"

/-- The constant `ARATELIA_FILE_READER_VIDEO_READER_ROLE`. -/
def ARATELIA_FILE_READER_VIDEO_READER_ROLE : String := "video_reader.binary"

/-- The constant `ARATELIA_FILE_READER_IMAGE_READER_ROLE`. -/
def ARATELIA_FILE_READER_IMAGE_READER_ROLE : String := "image_reader.binary"

/-- The constant `ARATELIA_FILE_READER_OTHER_READER_ROLE`. -/
def ARATELIA_FILE_READER_OTHER_READER_ROLE : String := "other_reader.binary"

/-- The constant `ARATELIA_FILE_READER_COMPONENT_NAME`. -/
def ARATELIA_FILE_READER_COMPONENT_NAME : String := "OMX.Aratelia.file_reader.binary"

/-- The constant `ARATELIA_FILE_READER_PORT_MIN_BUF_COUNT`. -/
def ARATELIA_FILE_READER_PORT_MIN_BUF_COUNT : Nat := 2

/-- The constant `ARATELIA_FILE_READER_PORT_MIN_BUF_SIZE`. -/
def ARATELIA_FILE_READER_PORT_MIN_BUF_SIZE : Nat := 1024

/-- The constant `ARATELIA_FILE_READER_PORT_NONCONTIGUOUS` (`OMX_FALSE`). -/
def ARATELIA_FILE_READER_PORT_NONCONTIGUOUS : Bool := false

/-- The constant `ARATELIA_FILE_READER_PORT_ALIGNMENT`. -/
def ARATELIA_FILE_READER_PORT_ALIGNMENT : Nat := 0

/-- The constant `ARATELIA_FILE_READER_PORT_SUPPLIERPREF`. -/
def ARATELIA_FILE_READER_PORT_SUPPLIERPREF : OMX_BUFFERSUPPLIERTYPE :=
  OMX_BUFFERSUPPLIERTYPE.OMX_BufferSupplyInput

/-- The variable `file_reader_version`. -/
def file_reader_version : Nat × Nat × Nat × Nat := (1, 0, 0, 0)

/-- An object made by `factory_new` in `fr.c`: a binary port with its options, the config
port with the component name and version, or the processor. -/
inductive fr_object where
  | tizbinaryport (opts : tiz_port_options_t)
  | frcfgport (name : String) (version : Nat × Nat × Nat × Nat)
  | frprc
  deriving DecidableEq, Repr

/-- The function `instantiate_audio_port` of `fr.c`: the object it returns. -/
def fr.instantiate_audio_port : fr_object :=
  fr_object.tizbinaryport
    { domain := OMX_PORTDOMAINTYPE.OMX_PortDomainAudio
      dir := OMX_DIRTYPE.OMX_DirOutput
      min_buf_count := ARATELIA_FILE_READER_PORT_MIN_BUF_COUNT
      min_buf_size := ARATELIA_FILE_READER_PORT_MIN_BUF_SIZE
      contiguous := ARATELIA_FILE_READER_PORT_NONCONTIGUOUS
      alignment := ARATELIA_FILE_READER_PORT_ALIGNMENT
      buf_supplier := ARATELIA_FILE_READER_PORT_SUPPLIERPREF
      mem_hooks := (none, none, none)
      mos_port := -1 }

/-- The function `instantiate_video_port` of `fr.c`: the object it returns. -/
def fr.instantiate_video_port : fr_object :=
  fr_object.tizbinaryport
    { domain := OMX_PORTDOMAINTYPE.OMX_PortDomainVideo
      dir := OMX_DIRTYPE.OMX_DirOutput
      min_buf_count := ARATELIA_FILE_READER_PORT_MIN_BUF_COUNT
      min_buf_size := ARATELIA_FILE_READER_PORT_MIN_BUF_SIZE
      contiguous := ARATELIA_FILE_READER_PORT_NONCONTIGUOUS
      alignment := ARATELIA_FILE_READER_PORT_ALIGNMENT
      buf_supplier := ARATELIA_FILE_READER_PORT_SUPPLIERPREF
      mem_hooks := (none, none, none)
      mos_port := -1 }

/-- The function `instantiate_image_port` of `fr.c`: the object it returns. -/
def fr.instantiate_image_port : fr_object :=
  fr_object.tizbinaryport
    { domain := OMX_PORTDOMAINTYPE.OMX_PortDomainImage
      dir := OMX_DIRTYPE.OMX_DirOutput
      min_buf_count := ARATELIA_FILE_READER_PORT_MIN_BUF_COUNT
      min_buf_size := ARATELIA_FILE_READER_PORT_MIN_BUF_SIZE
      contiguous := ARATELIA_FILE_READER_PORT_NONCONTIGUOUS
      alignment := ARATELIA_FILE_READER_PORT_ALIGNMENT
      buf_supplier := ARATELIA_FILE_READER_PORT_SUPPLIERPREF
      mem_hooks := (none, none, none)
      mos_port := -1 }

/-- The function `instantiate_other_port` of `fr.c`: the object it returns. -/
def fr.instantiate_other_port : fr_object :=
  fr_object.tizbinaryport
    { domain := OMX_PORTDOMAINTYPE.OMX_PortDomainOther
      dir := OMX_DIRTYPE.OMX_DirOutput
      min_buf_count := ARATELIA_FILE_READER_PORT_MIN_BUF_COUNT
      min_buf_size := ARATELIA_FILE_READER_PORT_MIN_BUF_SIZE
      contiguous := ARATELIA_FILE_READER_PORT_NONCONTIGUOUS
      alignment := ARATELIA_FILE_READER_PORT_ALIGNMENT
      buf_supplier := ARATELIA_FILE_READER_PORT_SUPPLIERPREF
      mem_hooks := (none, none, none)
      mos_port := -1 }

/-- The function `instantiate_config_port` of `fr.c`: the object it returns. -/
def fr.instantiate_config_port : fr_object :=
  fr_object.frcfgport ARATELIA_FILE_READER_COMPONENT_NAME file_reader_version

/-- The function `instantiate_processor` of `fr.c`: the object it returns. -/
def fr.instantiate_processor : fr_object :=
  fr_object.frprc

/-- The factory functions of `fr.c`, as the function pointers stored in a role. -/
inductive fr_factory where
  | instantiate_audio_port
  | instantiate_video_port
  | instantiate_image_port
  | instantiate_other_port
  | instantiate_config_port
  | instantiate_processor
  deriving DecidableEq, Repr

/-- Call a factory function through its pointer. -/
def fr_factory.call : fr_factory → fr_object
  | fr_factory.instantiate_audio_port => fr.instantiate_audio_port
  | fr_factory.instantiate_video_port => fr.instantiate_video_port
  | fr_factory.instantiate_image_port => fr.instantiate_image_port
  | fr_factory.instantiate_other_port => fr.instantiate_other_port
  | fr_factory.instantiate_config_port => fr.instantiate_config_port
  | fr_factory.instantiate_processor => fr.instantiate_processor

/-- The fields of `tiz_role_factory_t` that `OMX_ComponentInit` fills in; `pf_port` holds
the entries of the array that were assigned. -/
structure tiz_role_factory_t where
  role : String
  pf_cport : fr_factory
  pf_port : List fr_factory
  nports : Nat
  pf_proc : fr_factory
  deriving DecidableEq, Repr

/-- A call from `OMX_ComponentInit` to the component runtime. -/
inductive CompCall where
  | tiz_comp_init (name : String)
  | tiz_comp_register_roles (rf_list : List tiz_role_factory_t) (nroles : Nat)
  deriving DecidableEq, Repr

/-- The function `OMX_ComponentInit` of `fr.c`: what it returns and the calls it makes.
`rc_init` and `rc_roles` are what `tiz_comp_init` and `tiz_comp_register_roles` return;
the function does not look at them. -/
def fr.OMX_ComponentInit (_rc_init _rc_roles : OMX_ERRORTYPE) : OMX_ERRORTYPE × List CompCall :=
  -- assert (ap_hdl);
  let audio_role : tiz_role_factory_t :=
    { role := ARATELIA_FILE_READER_AUDIO_READER_ROLE
      pf_cport := fr_factory.instantiate_config_port
      pf_port := [fr_factory.instantiate_audio_port]
      nports := 1
      pf_proc := fr_factory.instantiate_processor }
  let video_role : tiz_role_factory_t :=
    { role := ARATELIA_FILE_READER_VIDEO_READER_ROLE
      pf_cport := fr_factory.instantiate_config_port
      pf_port := [fr_factory.instantiate_video_port]
      nports := 1
      pf_proc := fr_factory.instantiate_processor }
  let image_role : tiz_role_factory_t :=
    { role := ARATELIA_FILE_READER_IMAGE_READER_ROLE
      pf_cport := fr_factory.instantiate_config_port
      pf_port := [fr_factory.instantiate_image_port]
      nports := 1
      pf_proc := fr_factory.instantiate_processor }
  let other_role : tiz_role_factory_t :=
    { role := ARATELIA_FILE_READER_OTHER_READER_ROLE
      pf_cport := fr_factory.instantiate_config_port
      pf_port := [fr_factory.instantiate_other_port]
      nports := 1
      pf_proc := fr_factory.instantiate_processor }
  let rf_list := [audio_role, video_role, image_role, other_role]
  (OMX_ErrorNone,
    [CompCall.tiz_comp_init ARATELIA_FILE_READER_COMPONENT_NAME,
      CompCall.tiz_comp_register_roles rf_list 4])

/-- The roles that a list of calls registers: the first `nroles` entries of each
`tiz_comp_register_roles`. -/
def registered_roles : List CompCall → List tiz_role_factory_t
  | [] => []
  | CompCall.tiz_comp_register_roles rf_list nroles :: rest =>
    rf_list.take nroles ++ registered_roles rest
  | _ :: rest => registered_roles rest

/-- The options of the data ports of a role: what each of its first `nports` port
factories passes to the binary port it makes. -/
def role_ports (r : tiz_role_factory_t) : List tiz_port_options_t :=
  (r.pf_port.take r.nports).filterMap fun f =>
    match f.call with
    | fr_object.tizbinaryport opts => some opts
    | _ => none

/-! ## The component state machine, as the test `check_vp8_decoder.c` sees it -/

/-- The component states of `OMX_STATETYPE`; `OMX_StateMax` is the value the test stores
before it waits for a transition. -/
inductive OMX_STATETYPE where
  | OMX_StateInvalid
  | OMX_StateLoaded
  | OMX_StateIdle
  | OMX_StateExecuting
  | OMX_StatePause
  | OMX_StateWaitForResources
  | OMX_StateMax
  deriving DecidableEq, Repr

/-- The commands of `OMX_COMMANDTYPE`. -/
inductive OMX_COMMANDTYPE where
  | OMX_CommandStateSet
  | OMX_CommandFlush
  | OMX_CommandPortDisable
  | OMX_CommandPortEnable
  | OMX_CommandMarkBuffer
  deriving DecidableEq, Repr

/-- The event kinds that the test waits for (`pg_events`), and the error event. -/
inductive OMX_EVENTTYPE where
  | OMX_EventCmdComplete
  | OMX_EventError
  | OMX_EventPortSettingsChanged
  | OMX_EventBufferFlag
  | OMX_EventVendorStartUnused
  deriving DecidableEq, Repr

/-- An event as the component hands it to the `EventHandler` of the IL client: a completed
state-set command carries the state reached in `nData2`, a completed command of another
kind carries `nData2` as a number, an error carries the error code in `nData1`. -/
inductive ILEvent where
  | cmd_complete_state_set (nData2 : OMX_STATETYPE)
  | cmd_complete (cmd : OMX_COMMANDTYPE) (nData2 : Nat)
  | error (nData1 : OMX_ERRORTYPE)
  | buffer_flag (nData1 : Nat) (nData2 : Nat)
  | port_settings_changed (nData1 : Nat) (nData2 : Nat)
  deriving DecidableEq, Repr

/-- Modelled from the spec: the transition table of the component state machine (tizfsm
and the state classes of libtizonia, not under src/). The legal transitions are
Loaded to Idle, Idle to Executing, Executing to Pause and back, Executing to Idle, Pause to
Idle, and Idle to Loaded. -/
def legal_transition : OMX_STATETYPE → OMX_STATETYPE → Bool
  | OMX_STATETYPE.OMX_StateLoaded, OMX_STATETYPE.OMX_StateIdle => true
  | OMX_STATETYPE.OMX_StateIdle, OMX_STATETYPE.OMX_StateExecuting => true
  | OMX_STATETYPE.OMX_StateExecuting, OMX_STATETYPE.OMX_StatePause => true
  | OMX_STATETYPE.OMX_StatePause, OMX_STATETYPE.OMX_StateExecuting => true
  | OMX_STATETYPE.OMX_StateExecuting, OMX_STATETYPE.OMX_StateIdle => true
  | OMX_STATETYPE.OMX_StatePause, OMX_STATETYPE.OMX_StateIdle => true
  | OMX_STATETYPE.OMX_StateIdle, OMX_STATETYPE.OMX_StateLoaded => true
  | _, _ => false

/-- Modelled from the spec: how the component state machine (libtizonia, not under src/)
serves the command `OMX_CommandStateSet` with the requested state `req` while in the state
`cur`; `hooks_rc` is what the port operations and processor hooks of the transition
return. A request that is not an edge of the table fails with `IncorrectStateTransition`
and leaves the state; an error of a hook is surfaced as a failure event carrying it and the
component returns to its last good state; otherwise the component reaches `req` and the
command completes. Every command yields exactly one terminal event. -/
def state_set (cur req : OMX_STATETYPE) (hooks_rc : OMX_ERRORTYPE) : OMX_STATETYPE × ILEvent :=
  if legal_transition cur req then
    if hooks_rc = OMX_ErrorNone then (req, ILEvent.cmd_complete_state_set req)
    else (cur, ILEvent.error hooks_rc)
  else (cur, ILEvent.error OMX_ErrorIncorrectStateTransition)

/-- Modelled from the spec: `OMX_GetState` (libtizonia, not under src/) returns the
current state of the component. -/
def OMX_GetState (cur : OMX_STATETYPE) : OMX_ERRORTYPE × OMX_STATETYPE :=
  (OMX_ErrorNone, cur)

/-- Serve a list of state-set commands in order, each with the result of its hooks; the
result lists, for each command, the state reached and the event produced. -/
def serve_state_sets : OMX_STATETYPE → List (OMX_STATETYPE × OMX_ERRORTYPE) →
    List (OMX_STATETYPE × ILEvent)
  | _, [] => []
  | cur, (req, hooks_rc) :: rest =>
    (state_set cur req hooks_rc) :: serve_state_sets (state_set cur req hooks_rc).1 rest

/-- The part of `check_common_context` of the test that the event handler writes: the
state, flags, port and index last reported, and which events have been signalled. -/
structure check_common_context where
  state : OMX_STATETYPE
  flags : Nat
  port : Nat
  index : Nat
  signaled : OMX_EVENTTYPE → Bool

/-- The function `_ctx_signal` of the test. -/
def _ctx_signal (ctx : check_common_context) (event : OMX_EVENTTYPE) : check_common_context :=
  { ctx with signaled := fun e => if e = event then true else ctx.signaled e }

/-- The function `_ctx_reset` of the test. -/
def _ctx_reset (ctx : check_common_context) (event : OMX_EVENTTYPE) : check_common_context :=
  let ctx1 : check_common_context :=
    { ctx with signaled := fun e => if e = event then false else ctx.signaled e }
  let ctx2 : check_common_context :=
    if event = OMX_EVENTTYPE.OMX_EventCmdComplete then
      { ctx1 with state := OMX_STATETYPE.OMX_StateMax }
    else ctx1
  let ctx3 : check_common_context :=
    if event = OMX_EVENTTYPE.OMX_EventBufferFlag then { ctx2 with flags := 0 } else ctx2
  if event = OMX_EVENTTYPE.OMX_EventPortSettingsChanged then { ctx3 with port := 0, index := 0 }
  else ctx3

/-- The function `check_EventHandler` of the test. -/
def check_EventHandler (ctx : check_common_context) : ILEvent → check_common_context
  | ILEvent.cmd_complete_state_set nData2 =>
    _ctx_signal { ctx with state := nData2 } OMX_EVENTTYPE.OMX_EventCmdComplete
  | ILEvent.cmd_complete _ _ => ctx -- assert (0);
  | ILEvent.buffer_flag _ nData2 =>
    if nData2 &&& OMX_BUFFERFLAG_EOS ≠ 0 then
      _ctx_signal { ctx with flags := nData2 } OMX_EVENTTYPE.OMX_EventBufferFlag
    else ctx
  | ILEvent.port_settings_changed nData1 nData2 =>
    _ctx_signal { ctx with port := nData1, index := nData2 }
      OMX_EVENTTYPE.OMX_EventPortSettingsChanged
  | ILEvent.error _ => ctx

/-- One state transition of `test_vp8_playback` for one component in the state `cur`:
`_ctx_reset`, `OMX_SendCommand (OMX_CommandStateSet, req)`, `_ctx_wait`, the three
`fail_if` on the callback, `OMX_GetState` and its two `fail_if`. The component serves the
command with `state_set` and calls the event handler before the wait ends; the wait times
out when the awaited event was not signalled. The result is true when no `fail_if` fires,
with the state of the component. -/
def test_transition (ctx : check_common_context) (cur req : OMX_STATETYPE)
    (hooks_rc : OMX_ERRORTYPE) : Bool × OMX_STATETYPE × check_common_context :=
  let ctx1 := _ctx_reset ctx OMX_EVENTTYPE.OMX_EventCmdComplete
  let served := state_set cur req hooks_rc
  let ctx2 := check_EventHandler ctx1 served.2
  let timedout := !ctx2.signaled OMX_EVENTTYPE.OMX_EventCmdComplete
  let got := OMX_GetState served.1
  (!timedout && decide (req = ctx2.state) && decide (got.1 = OMX_ErrorNone) &&
    decide (req = got.2), served.1, ctx2)

/-- The context of the test before any event. -/
def ctx_initial : check_common_context :=
  { state := OMX_STATETYPE.OMX_StateMax, flags := 0, port := 0, index := 0
    signaled := fun _ => false }

/-- The four state transitions that `test_vp8_playback` drives on a component, in order:
to Idle, to Executing, to Idle, to Loaded; true when all four pass. -/
def test_transitions (hooks_rc : OMX_ERRORTYPE) : Bool :=
  let t1 := test_transition ctx_initial OMX_STATETYPE.OMX_StateLoaded
    OMX_STATETYPE.OMX_StateIdle hooks_rc
  let t2 := test_transition t1.2.2 t1.2.1 OMX_STATETYPE.OMX_StateExecuting hooks_rc
  let t3 := test_transition t2.2.2 t2.2.1 OMX_STATETYPE.OMX_StateIdle hooks_rc
  let t4 := test_transition t3.2.2 t3.2.1 OMX_STATETYPE.OMX_StateLoaded hooks_rc
  t1.1 && t2.1 && t3.1 && t4.1

/-- An environment for the VP8 encoder in which every `tiz_krn_select` fails with
`OMX_ErrorInsufficientResources`; otherwise as `env_busy`. -/
def env_select_fails : Env :=
  { env_busy with
    omx_rc := fun tr =>
      match tr.getLast? with
      | some (Call.tiz_krn_select _) => OMX_ErrorInsufficientResources
      | _ => OMX_ErrorNone }

/-- An environment for the VP8 encoder in which the first `tiz_krn_select` succeeds and
every later one fails with `OMX_ErrorInsufficientResources`; otherwise as `env_busy`. -/
def env_second_select_fails : Env :=
  { env_busy with
    omx_rc := fun tr =>
      if tr.getLast? = some (Call.tiz_krn_select 2) ∧ 2 ≤ tr.count (Call.tiz_krn_select 2) then
        OMX_ErrorInsufficientResources
      else OMX_ErrorNone }

/-! ## The HTTP renderer component: `icer.c` -/

/-- The constant `ARATELIA_HTTP_RENDERER_DEFAULT_ROLE`. -/
def ARATELIA_HTTP_RENDERER_DEFAULT_ROLE : String := "ice_renderer.http"

/-- The constant `ARATELIA_HTTP_RENDERER_COMPONENT_NAME`. -/
def ARATELIA_HTTP_RENDERER_COMPONENT_NAME : String := "OMX.Aratelia.ice_renderer.http"

/-- The factory functions of `icer.c`, as the function pointers stored in a role. -/
inductive icer_factory where
  | instantiate_binary_port
  | instantiate_config_port
  | instantiate_processor
  deriving DecidableEq, Repr

/-- The fields of `tiz_role_factory_t` that `OMX_ComponentInit` of `icer.c` fills in. -/
structure icer_role_factory_t where
  role : String
  pf_cport : icer_factory
  pf_port : List icer_factory
  nports : Nat
  pf_proc : icer_factory
  deriving DecidableEq, Repr

/-- A call from `OMX_ComponentInit` of `icer.c` to the component runtime. -/
inductive IcerCall where
  | tiz_comp_init (name : String)
  | tiz_comp_register_roles (rf_list : List icer_role_factory_t) (nroles : Nat)
  deriving DecidableEq, Repr

/-- The function `OMX_ComponentInit` of `icer.c`: what it returns and the calls it makes.
`rc_init` and `rc_roles` are what `tiz_comp_init` and `tiz_comp_register_roles` return;
both calls are wrapped in `tiz_check_omx_err`. -/
def icer.OMX_ComponentInit (rc_init rc_roles : OMX_ERRORTYPE) : OMX_ERRORTYPE × List IcerCall :=
  -- assert (ap_hdl);
  let role_factory : icer_role_factory_t :=
    { role := ARATELIA_HTTP_RENDERER_DEFAULT_ROLE
      pf_cport := icer_factory.instantiate_config_port
      pf_port := [icer_factory.instantiate_binary_port]
      nports := 1
      pf_proc := icer_factory.instantiate_processor }
  let rf_list := [role_factory]
  let c1 := IcerCall.tiz_comp_init ARATELIA_HTTP_RENDERER_COMPONENT_NAME
  if rc_init ≠ OMX_ErrorNone then (rc_init, [c1])
  else
    let c2 := IcerCall.tiz_comp_register_roles rf_list 1
    if rc_roles ≠ OMX_ErrorNone then (rc_roles, [c1, c2])
    else (OMX_ErrorNone, [c1, c2])

/-- The two calls an entry point makes to the component runtime, without arguments. -/
inductive InitCall where
  | tiz_comp_init
  | tiz_comp_register_roles
  deriving DecidableEq, Repr

/-- The calls of the file reader's entry point, without arguments. -/
def fr_init_calls : List CompCall → List InitCall
  | [] => []
  | CompCall.tiz_comp_init _ :: rest => InitCall.tiz_comp_init :: fr_init_calls rest
  | CompCall.tiz_comp_register_roles _ _ :: rest =>
    InitCall.tiz_comp_register_roles :: fr_init_calls rest

/-- The calls of the HTTP renderer's entry point, without arguments. -/
def icer_init_calls : List IcerCall → List InitCall
  | [] => []
  | IcerCall.tiz_comp_init _ :: rest => InitCall.tiz_comp_init :: icer_init_calls rest
  | IcerCall.tiz_comp_register_roles _ _ :: rest =>
    InitCall.tiz_comp_register_roles :: icer_init_calls rest

/-- Error propagation of a component entry point as the specification words it: return
`OMX_ErrorNone` if and only if `tiz_comp_init` and `tiz_comp_register_roles` both
succeeded, otherwise the first error, and do not call `tiz_comp_register_roles` after
`tiz_comp_init` has failed. -/
def component_init_spec (rc_init rc_roles : OMX_ERRORTYPE) : OMX_ERRORTYPE × List InitCall :=
  if rc_init ≠ OMX_ErrorNone then (rc_init, [InitCall.tiz_comp_init])
  else (rc_roles, [InitCall.tiz_comp_init, InitCall.tiz_comp_register_roles])

/-! ## The Vorbis decoding graph: `tizvorbisgraph.cc` -/

/-- The audio coding types of `OMX_AUDIO_CODINGTYPE` that a probe can report. -/
inductive OMX_AUDIO_CODINGTYPE where
  | OMX_AUDIO_CodingUnused
  | OMX_AUDIO_CodingAutoDetect
  | OMX_AUDIO_CodingPCM
  | OMX_AUDIO_CodingAAC
  | OMX_AUDIO_CodingMP3
  | OMX_AUDIO_CodingVORBIS
  deriving DecidableEq, Repr

/-- The structure `OMX_AUDIO_PARAM_VORBISTYPE` without `nSize` and `nVersion`. -/
structure OMX_AUDIO_PARAM_VORBISTYPE where
  nPortIndex : Nat
  nChannels : Nat
  nBitRate : Nat
  nMinBitRate : Nat
  nMaxBitRate : Nat
  nSampleRate : Nat
  nAudioBandWidth : Nat
  nQuality : Int
  bManaged : Bool
  bDownmix : Bool
  deriving DecidableEq, Repr

/-- The macro `TIZ_INIT_OMX_PORT_STRUCT` of tizplatform applied to an
`OMX_AUDIO_PARAM_VORBISTYPE`: the structure is zeroed and `nPortIndex` is set. -/
def TIZ_INIT_OMX_PORT_STRUCT (port_id : Nat) : OMX_AUDIO_PARAM_VORBISTYPE :=
  { nPortIndex := port_id, nChannels := 0, nBitRate := 0, nMinBitRate := 0, nMaxBitRate := 0
    nSampleRate := 0, nAudioBandWidth := 0, nQuality := 0, bManaged := false
    bDownmix := false }

/-- An object of class `tiz::probe`: the arguments its constructor was given. What its
getters answer is determined by the environment from the URI. -/
structure tiz_probe where
  uri_ : String
  quiet_ : Bool
  deriving DecidableEq, Repr

/-- A call from the graph operations to the probe, the graph utilities or the IL core.
`handle` is the index into `handles_`. -/
inductive GraphCall where
  | make_probe (uri : String) (quiet : Bool)
  | dump_graph_info (ap_coding_type_str ap_graph_type_str uri : String)
  | dump_stream_metadata (p : tiz_probe)
  | dump_pcm_info (p : tiz_probe)
  | get_vorbis_codec_info (p : tiz_probe)
  | OMX_GetParameter_AudioVorbis (handle : Nat) (param : OMX_AUDIO_PARAM_VORBISTYPE)
  | OMX_SetParameter_AudioVorbis (handle : Nat) (param : OMX_AUDIO_PARAM_VORBISTYPE)
  deriving DecidableEq, Repr

/-- The collaborators of the graph operations: what probing a URI finds, and what the
decoder component answers, the latter as functions of the history of calls. -/
structure GraphEnv where
  /-- Answer of `tiz::probe::get_omx_domain` for a probe of this URI. -/
  get_omx_domain : String → OMX_PORTDOMAINTYPE
  /-- Answer of `tiz::probe::get_audio_coding_type` for a probe of this URI. -/
  get_audio_coding_type : String → OMX_AUDIO_CODINGTYPE
  /-- What `tiz::probe::get_vorbis_codec_info` leaves in the structure passed by reference. -/
  get_vorbis_codec_info : String → OMX_AUDIO_PARAM_VORBISTYPE → OMX_AUDIO_PARAM_VORBISTYPE
  /-- Result of `OMX_GetParameter` or `OMX_SetParameter`. -/
  omx_rc : List GraphCall → OMX_ERRORTYPE
  /-- What `OMX_GetParameter` leaves in the structure it is given. -/
  get_parameter : List GraphCall → OMX_AUDIO_PARAM_VORBISTYPE → OMX_AUDIO_PARAM_VORBISTYPE

/-- The members of `graph::vorbisdecops` (with those of its base `graph::ops`) that
`probe_uri` and `set_vorbis_settings` read or write. An empty `probe_ptr_` is `none`. -/
structure vorbisdecops where
  file_list_ : List String
  current_file_index_ : Int
  probe_ptr_ : Option tiz_probe
  need_port_settings_changed_evt_ : Bool
  deriving DecidableEq, Repr

/-- The graph operations object together with the trace of the calls made so far. -/
structure GSys where
  ops : vorbisdecops
  trace : List GraphCall

/-- Record a call of the graph operations. -/
def GSys.call (s : GSys) (c : GraphCall) : GSys :=
  { s with trace := s.trace ++ [c] }

/-- The constructor `graph::vorbisdecops::vorbisdecops`, for a given file list: no probe
yet, `need_port_settings_changed_evt_ (false)`. -/
def vorbisdecops.ctor (file_list : List String) : vorbisdecops :=
  { file_list_ := file_list, current_file_index_ := 0, probe_ptr_ := none
    need_port_settings_changed_evt_ := false }

/-- The function `graph::vorbisdecops::is_port_settings_evt_required`. -/
def vorbisdecops.is_port_settings_evt_required (o : vorbisdecops) : Bool :=
  o.need_port_settings_changed_evt_

/-- The function `graph::vorbisdecops::set_vorbis_settings`. `OMX_SetParameter` reads the
structure it is given. The result is `none` when `probe_ptr_` is empty at
`probe_ptr_->get_vorbis_codec_info`. -/
def vorbisdecops.set_vorbis_settings (E : GraphEnv) (s : GSys) :
    Option (OMX_ERRORTYPE × GSys) :=
  -- Retrieve the current vorbis settings from the decoder's port #0
  let vorbistype_orig0 := TIZ_INIT_OMX_PORT_STRUCT 0
  let s1 := s.call (GraphCall.OMX_GetParameter_AudioVorbis 1 vorbistype_orig0)
  let vorbistype_orig := E.get_parameter s1.trace vorbistype_orig0
  if E.omx_rc s1.trace ≠ OMX_ErrorNone then some (E.omx_rc s1.trace, s1)
  else
    -- Set the vorbis settings on decoder's port #0
    let vorbistype0 := TIZ_INIT_OMX_PORT_STRUCT 0
    match s1.ops.probe_ptr_ with
    | none => none
    | some p =>
      let s2 := s1.call (GraphCall.get_vorbis_codec_info p)
      let vorbistype1 := E.get_vorbis_codec_info p.uri_ vorbistype0
      let vorbistype := { vorbistype1 with nPortIndex := 0 }
      let s3 := s2.call (GraphCall.OMX_SetParameter_AudioVorbis 1 vorbistype)
      if E.omx_rc s3.trace ≠ OMX_ErrorNone then some (E.omx_rc s3.trace, s3)
      else
        -- Record whether we need to wait for a port settings change event or not
        if vorbistype_orig.nSampleRate ≠ vorbistype.nSampleRate
            ∨ vorbistype_orig.nChannels ≠ vorbistype.nChannels then
          some (OMX_ErrorNone,
            { s3 with ops := { s3.ops with need_port_settings_changed_evt_ := true } })
        else
          some (OMX_ErrorNone,
            { s3 with ops := { s3.ops with need_port_settings_changed_evt_ := false } })

/-- A 44.1 kHz stereo Vorbis stream. -/
def vorbis_44100_stereo : OMX_AUDIO_PARAM_VORBISTYPE :=
  { TIZ_INIT_OMX_PORT_STRUCT 0 with nChannels := 2, nSampleRate := 44100 }

/-- A 48 kHz stereo Vorbis setting. -/
def vorbis_48000_stereo : OMX_AUDIO_PARAM_VORBISTYPE :=
  { TIZ_INIT_OMX_PORT_STRUCT 0 with nChannels := 2, nSampleRate := 48000 }

/-- An environment where the file `a.ogg` is 44.1 kHz stereo Vorbis audio, every other URI
is video, and the decoder reports 48 kHz stereo and accepts every setting. -/
def genv_ok : GraphEnv :=
  { get_omx_domain := fun uri =>
      if uri = "a.ogg" then OMX_PORTDOMAINTYPE.OMX_PortDomainAudio
      else OMX_PORTDOMAINTYPE.OMX_PortDomainVideo
    get_audio_coding_type := fun uri =>
      if uri = "a.ogg" then OMX_AUDIO_CODINGTYPE.OMX_AUDIO_CodingVORBIS
      else OMX_AUDIO_CODINGTYPE.OMX_AUDIO_CodingUnused
    get_vorbis_codec_info := fun _ _ => vorbis_44100_stereo
    omx_rc := fun _ => OMX_ErrorNone
    get_parameter := fun _ _ => vorbis_48000_stereo }

/-- As `genv_ok`, but `OMX_SetParameter` fails with `OMX_ErrorBadParameter`. -/
def genv_set_fails : GraphEnv :=
  { genv_ok with
    omx_rc := fun t =>
      match t.getLast? with
      | some (GraphCall.OMX_SetParameter_AudioVorbis _ _) => OMX_ErrorBadParameter
      | _ => OMX_ErrorNone }

/-- Graph operations holding a probe of the Ogg file, with the flag set. -/
def graph_probed : GSys :=
  { ops := { vorbisdecops.ctor ["a.ogg", "", "b.mp4"] with
      probe_ptr_ := some { uri_ := "a.ogg", quiet_ := true }
      need_port_settings_changed_evt_ := true }
    trace := [] }

/-! ## The Deezer client: `tizdeezer.cpp` -/

/-- What the Python proxy object `py_gm_proxy_` answers to the calls of
`get_current_track`. A `char const *` that is `NULL` is `none`; the `int` values are the
mathematical values of 32-bit signed integers. -/
structure tizdeezerproxy where
  current_track_title_and_user : Option String × Option String
  current_track_duration : Int
  current_track_year : Int
  current_track_permalink : Option String
  current_track_license : Option String
  current_track_likes : Int

/-- The string members of class `tizdeezer` that `get_current_track` writes. -/
structure tizdeezer where
  current_user_ : String
  current_title_ : String
  current_duration_ : String
  current_track_year_ : String
  current_track_permalink_ : String
  current_track_license_ : String
  current_track_likes_ : String
  deriving DecidableEq, Repr

/-- The smallest value of a 32-bit `int`. -/
def INT_MIN : Int := -2147483648

/-- The largest value of a 32-bit `int`. -/
def INT_MAX : Int := 2147483647

/-- The conversion `boost::lexical_cast< std::string >` of an `int`: the decimal numeral,
with a minus sign when negative. -/
def lexical_cast (v : Int) : String := toString v

/-- The text that `sprintf` produces for the format `"%02i"`: the decimal numeral, padded
with zeros on the left (after the sign) up to a width of two characters. -/
def sprintf_02i (v : Int) : String :=
  if v < 0 then "-" ++ Nat.repr v.natAbs
  else if v < 10 then "0" ++ Nat.repr v.toNat
  else Nat.repr v.toNat

/-- The statements of `tizdeezer::get_current_track` from `int seconds = 0;` to the end of
the block guarded by `if (duration)`: the value of `seconds` after them and the text
appended to `current_duration_`. The `int` division and remainder of C++ truncate towards
zero; no operation of the block can overflow. -/
def tizdeezer.get_current_track_duration (duration : Int) (o : tizdeezer) : Int × tizdeezer :=
  let seconds : Int := 0
  if duration ≠ 0 then
    let duration := duration.tdiv 1000
    let seconds := duration.tmod 60
    let minutes := (duration - seconds).tdiv 60
    let hours : Int := 0
    let total_minutes := minutes
    let minutes := if total_minutes ≥ 60 then total_minutes.tmod 60 else minutes
    let hours := if total_minutes ≥ 60 then (total_minutes - minutes).tdiv 60 else hours
    let o1 :=
      if hours > 0 then
        { o with current_duration_ := o.current_duration_ ++ lexical_cast hours ++ "h:" }
      else o
    let o2 :=
      if minutes > 0 then
        { o1 with current_duration_ := o1.current_duration_ ++ lexical_cast minutes ++ "m:" }
      else o1
    (seconds, o2)
  else (seconds, o)

/-- The function `tizdeezer::get_current_track`: the value returned and the object after
the call. The result is `none` when `sprintf` writes more than the three bytes of
`seconds_str` (the characters and the terminating zero). -/
def tizdeezer.get_current_track (py : tizdeezerproxy) (o : tizdeezer) :
    Option (Int × tizdeezer) :=
  let rc : Int := 1
  let o := { o with current_user_ := "", current_title_ := "" }
  let info1 := py.current_track_title_and_user
  let p_user := info1.1
  let p_title := info1.2
  let o := match p_user with
    | some user => { o with current_user_ := user }
    | none => o
  let o := match p_title with
    | some title => { o with current_title_ := title }
    | none => o
  let duration := py.current_track_duration
  let o := { o with current_duration_ := "" }
  let r := tizdeezer.get_current_track_duration duration o
  let seconds := r.1
  let o := r.2
  -- char seconds_str[3];
  let seconds_str := sprintf_02i seconds
  if 3 < seconds_str.length + 1 then none
  else
    let o := { o with current_duration_ := o.current_duration_ ++ seconds_str ++ "s" }
    let track_year := py.current_track_year
    let o := { o with current_track_year_ := lexical_cast track_year }
    let p_track_permalink := py.current_track_permalink
    let o := match p_track_permalink with
      | some permalink => { o with current_track_permalink_ := permalink }
      | none => o
    let p_track_license := py.current_track_license
    let o := match p_track_license with
      | some license => { o with current_track_license_ := license }
      | none => o
    let track_likes := py.current_track_likes
    let o := { o with current_track_likes_ := lexical_cast track_likes }
    let rc := if p_user.isSome ∨ p_title.isSome then 0 else rc
    some (rc, o)

/-- The two-digit zero-padded decimal numeral of a number below 100. -/
def two_digits (s : Nat) : String :=
  String.mk [Nat.digitChar (s / 10), Nat.digitChar (s % 10)]

/-- The duration text as the specification words it: with `t = d div 1000`,
`h = t div 3600`, `m = (t div 60) mod 60` and `s = t mod 60`, the concatenation of
`<h>h:` if `h > 0`, `<m>m:` if `m > 0`, the two-digit zero-padded `s`, and `s`. -/
def duration_text (d : Nat) : String :=
  let t := d / 1000
  let h := t / 3600
  let m := (t / 60) % 60
  let s := t % 60
  (if h > 0 then Nat.repr h ++ "h:" else "") ++ (if m > 0 then Nat.repr m ++ "m:" else "")
    ++ two_digits s ++ "s"

/-- Reading a decimal numeral: one more digit. -/
def digit_step (cur : Nat) (c : Char) : Nat := cur * 10 + (c.toNat - 48)

/-- Reading a duration text back, one character at a time: the state is the number of
seconds read so far and the numeral being read. -/
def decode_step (st : Nat × Nat) (c : Char) : Nat × Nat :=
  if 48 ≤ c.toNat ∧ c.toNat ≤ 57 then (st.1, digit_step st.2 c)
  else if c = 'h' then (st.1 + st.2 * 3600, 0)
  else if c = 'm' then (st.1 + st.2 * 60, 0)
  else if c = 's' then (st.1 + st.2, 0)
  else st

/-- The number of seconds that a duration text stands for. -/
def decode_duration (text : String) : Nat :=
  (text.data.foldl decode_step (0, 0)).1

/-- A proxy that answers with a track of the given duration in milliseconds. -/
def proxy_with_duration (d : Int) : tizdeezerproxy :=
  { current_track_title_and_user := (some "user", some "title")
    current_track_duration := d
    current_track_year := 2017
    current_track_permalink := some "http://www.deezer.com/track/1"
    current_track_license := none
    current_track_likes := 7 }

/-- A `tizdeezer` object with all strings empty. -/
def tizdeezer_initial : tizdeezer :=
  { current_user_ := "", current_title_ := "", current_duration_ := ""
    current_track_year_ := "", current_track_permalink_ := ""
    current_track_license_ := "", current_track_likes_ := "" }

/-! ## Theorems -/

theorem releases_append (a b : List Call) : releases (a ++ b) = releases a ++ releases b := by
  induction a with
  | nil => rfl
  | cons c t ih => cases c <;> simp [releases, ih]

theorem stop_io_watcher_releases (E : Env) (s : HSys) :
    releases (stop_io_watcher E s).2.trace = releases s.trace := by
  unfold stop_io_watcher
  split <;> simp [Sys.set, Sys.call, releases_append, releases]

theorem stop_timer_watcher_releases (E : Env) (s : HSys) :
    releases (stop_timer_watcher E s).2.trace = releases s.trace := by
  unfold stop_timer_watcher
  split <;> simp [Sys.set, Sys.call, releases_append, releases]

theorem stop_io_watcher_outhdr (E : Env) (s : HSys) :
    (stop_io_watcher E s).2.prc.p_outhdr_ = s.prc.p_outhdr_ := by
  unfold stop_io_watcher
  split <;> simp [Sys.set, Sys.call]

theorem stop_timer_watcher_outhdr (E : Env) (s : HSys) :
    (stop_timer_watcher E s).2.prc.p_outhdr_ = s.prc.p_outhdr_ := by
  unfold stop_timer_watcher
  split <;> simp [Sys.set, Sys.call]

theorem release_buffer_ok (E : Env) (s : HSys)
    (h : (release_buffer E s).1 = OMX_ErrorNone) :
    (release_buffer E s).2.prc.p_outhdr_ = none ∧
      releases (release_buffer E s).2.trace = releases s.trace ++ held_release s.prc := by
  unfold release_buffer at h ⊢
  unfold held_release
  cases hp : s.prc.p_outhdr_ with
  | none => simp [hp]
  | some hdr =>
    by_cases h1 : E.omx_rc (s.trace ++ [Call.tiz_krn_release_buffer 0 hdr]) = OMX_ErrorNone
    · simp [hp, tiz_check_omx_err, Sys.set, Sys.call, h1, releases_append, releases]
    · simp [hp, tiz_check_omx_err, Sys.set, Sys.call, h1] at h

/-- C1: when `awaiting_io_ev_` is false, `httpsrc_prc_io_ready` returns `OMX_ErrorNone` for
every fd and event mask and leaves the processor and the trace of external calls as they
were (so no curl or watcher call is made); likewise `httpsrc_prc_timer_ready` when
`awaiting_timer_ev_` is false. -/
theorem io_timer_ready_noop_when_not_awaiting (E : Env) (s : HSys) (a_fd a_events : Int) :
    (s.prc.awaiting_io_ev_ = false →
        httpsrc_prc_io_ready E a_fd a_events s = (OMX_ErrorNone, s)) ∧
      (s.prc.awaiting_timer_ev_ = false →
        httpsrc_prc_timer_ready E s = (OMX_ErrorNone, s)) := by
  constructor
  · intro h
    simp [httpsrc_prc_io_ready, h]
  · intro h
    simp [httpsrc_prc_timer_ready, h]

/-- Witness of C1 at the processor as constructed, for fd 7 and the read event. -/
theorem io_timer_ready_noop_when_not_awaiting_witness :
    httpsrc_initial.prc.awaiting_io_ev_ = false ∧
      httpsrc_initial.prc.awaiting_timer_ev_ = false ∧
      httpsrc_prc_io_ready env_ok 7 TIZ_EVENT_READ httpsrc_initial
        = (OMX_ErrorNone, httpsrc_initial) ∧
      httpsrc_prc_timer_ready env_ok httpsrc_initial = (OMX_ErrorNone, httpsrc_initial) :=
  ⟨rfl, rfl,
    (io_timer_ready_noop_when_not_awaiting env_ok httpsrc_initial 7 TIZ_EVENT_READ).1 rfl,
    (io_timer_ready_noop_when_not_awaiting env_ok httpsrc_initial 7 TIZ_EVENT_READ).2 rfl⟩

/-- C4: after `httpsrc_prc_stop_and_return`, from every processor state and whatever the
watcher stop calls return, `awaiting_io_ev_` and `awaiting_timer_ev_` are both false, and
in the state it leaves every `io_ready` and every `timer_ready` event returns
`OMX_ErrorNone` without any call and without changing the processor. -/
theorem stop_and_return_clears_awaiting (E : Env) (s : HSys) :
    (httpsrc_prc_stop_and_return E s).2.prc.awaiting_io_ev_ = false ∧
      (httpsrc_prc_stop_and_return E s).2.prc.awaiting_timer_ev_ = false ∧
      (∀ (E1 : Env) (a_fd a_events : Int),
        httpsrc_prc_io_ready E1 a_fd a_events (httpsrc_prc_stop_and_return E s).2
          = (OMX_ErrorNone, (httpsrc_prc_stop_and_return E s).2)) ∧
      (∀ E1 : Env,
        httpsrc_prc_timer_ready E1 (httpsrc_prc_stop_and_return E s).2
          = (OMX_ErrorNone, (httpsrc_prc_stop_and_return E s).2)) := by
  have hio : (httpsrc_prc_stop_and_return E s).2.prc.awaiting_io_ev_ = false := by
    simp only [httpsrc_prc_stop_and_return, release_buffer, stop_timer_watcher,
      stop_io_watcher, tiz_check_omx_err, Sys.set, Sys.call]
    repeat' split
    all_goals simp_all
  have htm : (httpsrc_prc_stop_and_return E s).2.prc.awaiting_timer_ev_ = false := by
    simp only [httpsrc_prc_stop_and_return, release_buffer, stop_timer_watcher,
      stop_io_watcher, tiz_check_omx_err, Sys.set, Sys.call]
    repeat' split
    all_goals simp_all
  refine ⟨hio, htm, ?_, ?_⟩
  · intro E1 a_fd a_events
    simp [httpsrc_prc_io_ready, hio]
  · intro E1
    simp [httpsrc_prc_timer_ready, htm]

/-- C5: whenever `httpsrc_prc_port_disable`, `httpsrc_prc_port_flush` or
`httpsrc_prc_stop_and_return` returns `OMX_ErrorNone`, `p_outhdr_` is `NULL` afterwards and
the releases made during the call are exactly: the header that was held, once, on port 0;
none when no header was held. -/
theorem release_hooks_release_once (E : Env) (s : HSys) (a_pid : Nat) :
    ((httpsrc_prc_port_disable E a_pid s).1 = OMX_ErrorNone →
        (httpsrc_prc_port_disable E a_pid s).2.prc.p_outhdr_ = none ∧
        releases (httpsrc_prc_port_disable E a_pid s).2.trace
          = releases s.trace ++ held_release s.prc) ∧
      ((httpsrc_prc_port_flush E a_pid s).1 = OMX_ErrorNone →
        (httpsrc_prc_port_flush E a_pid s).2.prc.p_outhdr_ = none ∧
        releases (httpsrc_prc_port_flush E a_pid s).2.trace
          = releases s.trace ++ held_release s.prc) ∧
      ((httpsrc_prc_stop_and_return E s).1 = OMX_ErrorNone →
        (httpsrc_prc_stop_and_return E s).2.prc.p_outhdr_ = none ∧
        releases (httpsrc_prc_stop_and_return E s).2.trace
          = releases s.trace ++ held_release s.prc) := by
  refine ⟨release_buffer_ok E s, release_buffer_ok E s, ?_⟩
  intro h
  have key := release_buffer_ok E (stop_timer_watcher E (stop_io_watcher E s).2).2 h
  refine ⟨key.1, ?_⟩
  have e : held_release (stop_timer_watcher E (stop_io_watcher E s).2).2.prc
      = held_release s.prc := by
    simp [held_release, stop_timer_watcher_outhdr, stop_io_watcher_outhdr]
  simpa [httpsrc_prc_stop_and_return, stop_timer_watcher_releases, stop_io_watcher_releases, e]
    using key.2

/-- Witness of C5 at a processor that holds `hdr_out`, in the environment where every call
succeeds: each of the three hooks returns `OMX_ErrorNone`, and then holds no header and has
released `hdr_out` once on port 0. -/
theorem release_hooks_release_once_witness :
    (httpsrc_prc_port_disable env_ok 0 httpsrc_holding).1 = OMX_ErrorNone ∧
      (httpsrc_prc_port_flush env_ok 0 httpsrc_holding).1 = OMX_ErrorNone ∧
      (httpsrc_prc_stop_and_return env_ok httpsrc_holding).1 = OMX_ErrorNone ∧
      (httpsrc_prc_port_disable env_ok 0 httpsrc_holding).2.prc.p_outhdr_ = none ∧
      releases (httpsrc_prc_port_disable env_ok 0 httpsrc_holding).2.trace = [(0, hdr_out)] ∧
      (httpsrc_prc_port_flush env_ok 0 httpsrc_holding).2.prc.p_outhdr_ = none ∧
      releases (httpsrc_prc_port_flush env_ok 0 httpsrc_holding).2.trace = [(0, hdr_out)] ∧
      (httpsrc_prc_stop_and_return env_ok httpsrc_holding).2.prc.p_outhdr_ = none ∧
      releases (httpsrc_prc_stop_and_return env_ok httpsrc_holding).2.trace
        = [(0, hdr_out)] :=
  ⟨rfl, rfl, rfl,
    ((release_hooks_release_once env_ok httpsrc_holding 0).1 rfl).1,
    ((release_hooks_release_once env_ok httpsrc_holding 0).1 rfl).2,
    ((release_hooks_release_once env_ok httpsrc_holding 0).2.1 rfl).1,
    ((release_hooks_release_once env_ok httpsrc_holding 0).2.1 rfl).2,
    ((release_hooks_release_once env_ok httpsrc_holding 0).2.2 rfl).1,
    ((release_hooks_release_once env_ok httpsrc_holding 0).2.2 rfl).2⟩

theorem vp8e_loop_body_stuck (E : Env) (s : VSys) (hin hout : OMX_BUFFERHEADERTYPE)
    (h1 : s.prc.pinhdr_ = some hin) (h2 : hin.nFilledLen ≠ 0) (h3 : s.prc.pouthdr_ = some hout) :
    vp8e_loop_body E s = (LoopStep.again, s) := by
  simp [vp8e_loop_body, loop_claim_input, loop_claim_output, h1, h3,
    vp8e_proc_transform_buffer, release_consumed_input, h2]

theorem vp8e_loop_stuck (E : Env) (fuel : Nat) (s : VSys) (hin hout : OMX_BUFFERHEADERTYPE)
    (h1 : s.prc.pinhdr_ = some hin) (h2 : hin.nFilledLen ≠ 0) (h3 : s.prc.pouthdr_ = some hout) :
    vp8e_loop E fuel s = none := by
  induction fuel with
  | zero => rfl
  | succ n ih => simp [vp8e_loop, vp8e_loop_body_stuck E s hin hout h1 h2 h3, ih]

/-- C2, the code at the failing input: with an input header that carries data
(`nFilledLen = 5`) and an output header both available, `vp8e_proc_buffers_ready` has not
returned after any number of passes through its `while (1)`. -/
theorem vp8e_buffers_ready_never_returns (fuel : Nat) :
    vp8e_proc_buffers_ready env_busy fuel vp8e_initial = none := by
  cases fuel with
  | zero => rfl
  | succ n =>
    have hb : vp8e_loop_body env_busy vp8e_initial
        = (LoopStep.again,
            { prc := { pinhdr_ := some hdr_in_data, pouthdr_ := some hdr_out, eos_ := false }
              trace := [Call.tiz_krn_select 2, Call.tiz_krn_claim_buffer 0 0,
                Call.tiz_krn_select 2, Call.tiz_krn_claim_buffer 1 0] }) := by
      rfl
    have hs := vp8e_loop_stuck env_busy n
      { prc := { pinhdr_ := some hdr_in_data, pouthdr_ := some hdr_out, eos_ := false }
        trace := [Call.tiz_krn_select 2, Call.tiz_krn_claim_buffer 0 0,
          Call.tiz_krn_select 2, Call.tiz_krn_claim_buffer 1 0] }
      hdr_in_data hdr_out rfl (by decide) rfl
    simp [vp8e_proc_buffers_ready, vp8e_loop, hb, hs]

/-- C6, the code at the failing input: `vp8e_proc_buffers_ready` claims the input header
`hdr_in_data` and returns while holding it (no output header is available);
`vp8e_proc_stop_and_return` then returns `OMX_ErrorNone` and changes nothing: the processor
still holds the header and no header has been released. -/
theorem vp8e_stop_and_return_keeps_header :
    vp8e_proc_buffers_ready env_input_only 1 vp8e_initial
        = some (OMX_ErrorNone, vp8e_holding_input) ∧
      vp8e_proc_stop_and_return vp8e_holding_input = (OMX_ErrorNone, vp8e_holding_input) ∧
      vp8e_holding_input.prc.pinhdr_ = some hdr_in_data ∧
      releases (vp8e_proc_stop_and_return vp8e_holding_input).2.trace = [] :=
  ⟨rfl, rfl, rfl, rfl⟩

theorem no_eos_step_trans (s t u : VSys) (h1 : no_eos_step s t) (h2 : no_eos_step t u) :
    no_eos_step s u :=
  ⟨h2.1.trans h1.1, h2.2.trans h1.2⟩

theorem claim_input_no_eos (E : Env) (s : VSys) : no_eos_step s (claim_input E s).2 := by
  simp only [claim_input, tiz_check_omx_err_in_bool, Sys.set, Sys.call, no_eos_step, releases_on]
  repeat' split
  all_goals simp [releases_append, releases]

theorem claim_output_no_eos (E : Env) (s : VSys) : no_eos_step s (claim_output E s).2 := by
  simp only [claim_output, tiz_check_omx_err_in_bool, Sys.set, Sys.call, no_eos_step, releases_on]
  repeat' split
  all_goals simp [releases_append, releases]

theorem release_consumed_input_no_eos (s : VSys) :
    no_eos_step s (release_consumed_input s) := by
  simp only [release_consumed_input, Sys.set, Sys.call, no_eos_step, releases_on]
  repeat' split
  all_goals simp [releases_append, releases]

theorem vp8e_loop_body_no_eos (E : Env) (s : VSys) :
    no_eos_step s (vp8e_loop_body E s).2 := by
  have h1 : no_eos_step s (loop_claim_input E s).2 := by
    simp only [loop_claim_input]
    split
    · exact claim_input_no_eos E s
    · exact ⟨rfl, rfl⟩
  have h2 : no_eos_step (loop_claim_input E s).2
      (loop_claim_output E (loop_claim_input E s).2).2 := by
    simp only [loop_claim_output]
    split
    · exact claim_output_no_eos E _
    · exact ⟨rfl, rfl⟩
  simp only [vp8e_loop_body, vp8e_proc_transform_buffer]
  split
  · exact h1
  · split
    · exact no_eos_step_trans _ _ _ h1 h2
    · simp only [if_true]
      exact no_eos_step_trans _ _ _ (no_eos_step_trans _ _ _ h1 h2)
        (release_consumed_input_no_eos _)

theorem vp8e_loop_no_eos (E : Env) (fuel : Nat) (s : VSys) (r : LoopStep × VSys)
    (h : vp8e_loop E fuel s = some r) : no_eos_step s r.2 := by
  induction fuel generalizing s with
  | zero => simp [vp8e_loop] at h
  | succ n ih =>
    have hb := vp8e_loop_body_no_eos E s
    simp only [vp8e_loop] at h
    split at h
    · rename_i s1 heq
      rw [heq] at hb
      exact no_eos_step_trans _ _ _ hb (ih s1 h)
    · cases h
      exact hb

theorem vp8e_buffers_ready_no_eos (E : Env) (fuel : Nat) (s : VSys)
    (r : OMX_ERRORTYPE × VSys) (h0 : s.prc.eos_ = false)
    (h : vp8e_proc_buffers_ready E fuel s = some r) :
    r.2.prc.eos_ = false ∧ releases_on 1 r.2.trace = releases_on 1 s.trace := by
  simp only [vp8e_proc_buffers_ready] at h
  split at h
  · cases h
  · rename_i rc s1 heq
    cases h
    have := vp8e_loop_no_eos E fuel s _ heq
    exact ⟨this.1.trans h0, this.2⟩
  · rename_i x s1 hne heq
    cases h
    have := vp8e_loop_no_eos E fuel s _ heq
    have he : s1.prc.eos_ = false := this.1.trans h0
    simp only [vp8e_propagate_eos, he]
    split <;> exact ⟨he, this.2⟩

/-- C8, the code at the failing input: the input header `hdr_in_eos`, which carries the
end-of-stream flag, is claimed and released on port 0 by `vp8e_proc_buffers_ready`, an
output header is held, and the hook returns with `eos_` false, the output header still
held without the flag, and no release on port 1. -/
theorem vp8e_eos_not_propagated :
    vp8e_proc_buffers_ready env_eos 2 vp8e_initial
        = some (OMX_ErrorNone,
            { prc := { pinhdr_ := none, pouthdr_ := some hdr_out, eos_ := false }
              trace := [Call.tiz_krn_select 2, Call.tiz_krn_claim_buffer 0 0,
                Call.tiz_krn_select 2, Call.tiz_krn_claim_buffer 1 0,
                Call.tiz_krn_release_buffer 0 hdr_in_eos, Call.tiz_krn_select 2] }) ∧
      hdr_in_eos.nFlags &&& OMX_BUFFERFLAG_EOS = OMX_BUFFERFLAG_EOS ∧
      hdr_out.nFlags &&& OMX_BUFFERFLAG_EOS = 0 := by
  refine ⟨?_, by decide, by decide⟩
  rfl

/-- C3, the code at the failing input: libcurl delivers 16384 bytes while the kernel gives
the 4096-byte header `hdr_out`, which satisfies `nOffset + nFilledLen <= nAllocLen`;
`curl_write_cback` copies all 16384 bytes to `pBuffer + nOffset` and releases the header
with `nFilledLen = 16384`, beyond `nAllocLen = 4096`. -/
theorem curl_write_cback_overruns_header :
    hdr_out.nOffset + hdr_out.nFilledLen ≤ hdr_out.nAllocLen ∧
      (curl_write_cback env_claim_out 1 16384 httpsrc_executing).2.trace
        = [Call.tiz_event_io_stop (some 1),
            Call.tiz_event_io_set (some 1) 5 TIZ_EVENT_READ true,
            Call.tiz_krn_claim_buffer 0 0,
            Call.memcpy (some (hdr_out.pBuffer + hdr_out.nOffset)) 16384,
            Call.tiz_krn_release_buffer 0 { hdr_out with nFilledLen := 16384 }] ∧
      ¬ (16384 ≤ hdr_out.nAllocLen - hdr_out.nOffset) := by
  refine ⟨by decide, ?_, by decide⟩
  rfl

theorem stop_io_watcher_frozen (E : Env) (s : HSys) :
    frozen (stop_io_watcher E s).2.prc = frozen s.prc := by
  unfold stop_io_watcher
  split <;> rfl

theorem stop_timer_watcher_frozen (E : Env) (s : HSys) :
    frozen (stop_timer_watcher E s).2.prc = frozen s.prc := by
  unfold stop_timer_watcher
  split <;> rfl

theorem start_io_watcher_frozen (E : Env) (s : HSys) :
    frozen (start_io_watcher E s).2.prc = frozen s.prc := rfl

theorem start_timer_watcher_frozen (E : Env) (s : HSys) :
    frozen (start_timer_watcher E s).2.prc = frozen s.prc := rfl

theorem restart_timer_watcher_frozen (E : Env) (s : HSys) :
    frozen (restart_timer_watcher E s).2.prc = frozen s.prc := rfl

theorem release_buffer_frozen (E : Env) (s : HSys) :
    frozen (release_buffer E s).2.prc = frozen s.prc := by
  simp only [release_buffer, tiz_check_omx_err]
  repeat' split
  all_goals rfl

theorem buffer_needed_frozen (E : Env) (s : HSys) :
    frozen (buffer_needed E s).2.prc = frozen s.prc := by
  simp only [buffer_needed]
  repeat' split
  all_goals rfl

theorem curl_header_cback_frozen (E : Env) (size nmemb : Nat) (s : HSys) :
    frozen (curl_header_cback E size nmemb s).2.prc = frozen s.prc := rfl

theorem curl_write_cback_frozen (E : Env) (size nmemb : Nat) (s : HSys) :
    frozen (curl_write_cback E size nmemb s).2.prc = frozen s.prc := by
  unfold curl_write_cback
  simp only []
  split
  · split
    · rw [release_buffer_frozen]
      simp only [Sys.set, Sys.call, frozen, resource_handles]
      have h1 := buffer_needed_frozen E
        (Sys.call (stop_io_watcher E s).2
          (Call.tiz_event_io_set (stop_io_watcher E s).2.prc.p_ev_io_
            (stop_io_watcher E s).2.prc.sockfd_ TIZ_EVENT_READ true))
      have h2 := stop_io_watcher_frozen E s
      simp only [Sys.set, Sys.call, frozen, resource_handles] at h1 h2
      rw [← h2]
      exact h1
    · have h1 := buffer_needed_frozen E
        (Sys.call (stop_io_watcher E s).2
          (Call.tiz_event_io_set (stop_io_watcher E s).2.prc.p_ev_io_
            (stop_io_watcher E s).2.prc.sockfd_ TIZ_EVENT_READ true))
      have h2 := stop_io_watcher_frozen E s
      rw [← h2]
      exact h1
  · rfl

theorem curl_socket_cback_frozen (E : Env) (sock action : Int) (s : HSys) :
    frozen (curl_socket_cback E sock action s).2.prc = frozen s.prc := by
  simp only [curl_socket_cback]
  split <;> rfl

theorem curl_timer_cback_frozen (E : Env) (timeout_ms : Int) (s : HSys) :
    frozen (curl_timer_cback E timeout_ms s).2.prc = frozen s.prc := by
  simp only [curl_timer_cback]
  split
  · exact stop_timer_watcher_frozen E s
  · rfl

theorem run_cbacks_frozen (E : Env) (cbs : List CurlCback) (s : HSys) :
    frozen (run_cbacks E cbs s).prc = frozen s.prc := by
  induction cbs generalizing s with
  | nil => rfl
  | cons cb rest ih =>
    cases cb with
    | header size nmemb => simp only [run_cbacks, ih, curl_header_cback_frozen]
    | write size nmemb => simp only [run_cbacks, ih, curl_write_cback_frozen]
    | socket sock action => simp only [run_cbacks, ih, curl_socket_cback_frozen]
    | timer timeout_ms => simp only [run_cbacks, ih, curl_timer_cback_frozen]

theorem curl_multi_call_frozen (E : Env) (c : Call) (s : HSys) :
    frozen (curl_multi_call E c s).2.prc = frozen s.prc := by
  simp only [curl_multi_call, run_cbacks_frozen]
  rfl

theorem bail_on_curl_error_frozen (E : Env) (c : Call)
    (on_end k : HSys → OMX_ERRORTYPE × HSys) (s : HSys)
    (h1 : ∀ t, frozen (on_end t).2.prc = frozen t.prc)
    (h2 : ∀ t, frozen (k t).2.prc = frozen t.prc) :
    frozen (bail_on_curl_error E c on_end s k).2.prc = frozen s.prc := by
  simp only [bail_on_curl_error]
  split
  · rw [h2]
    rfl
  · rw [h1]
    rfl

theorem start_curl_handles_frozen (E : Env) (s : HSys) :
    frozen (start_curl_handles E s).2.prc = frozen s.prc := by
  simp only [start_curl_handles]
  repeat' first
    | (apply bail_on_curl_error_frozen)
    | (intro t)
  all_goals first
    | rfl
    | (split
       · exact curl_multi_call_frozen E _ _
       · exact curl_multi_call_frozen E _ _)

theorem bail_on_curl_error_cases {α : Type} (P : α → Prop) (E : Env) (c : Call)
    (on_end k : HSys → α) (s : HSys) (h1 : ∀ t, P (on_end t)) (h2 : ∀ t, P (k t)) :
    P (bail_on_curl_error E c on_end s k) := by
  simp only [bail_on_curl_error]
  split
  · exact h2 _
  · exact h1 _

theorem start_curl_handles_rc (E : Env) (s : HSys) :
    (start_curl_handles E s).1 = OMX_ErrorNone ∨
      (start_curl_handles E s).1 = OMX_ErrorInsufficientResources := by
  simp only [start_curl_handles]
  repeat' first
    | (apply bail_on_curl_error_cases
        (fun r : OMX_ERRORTYPE × HSys =>
          r.1 = OMX_ErrorNone ∨ r.1 = OMX_ErrorInsufficientResources))
    | (intro t)
  all_goals first
    | (exact Or.inr rfl)
    | (split
       · exact Or.inl rfl
       · exact Or.inr rfl)

/-- C7: after a call of `httpsrc_prc_buffers_ready` that returns `OMX_ErrorNone`,
`first_buffer_` is false and every further call, any number of them and in any environment,
returns `OMX_ErrorNone` without making a call and without changing the processor; and a
call that does not return `OMX_ErrorNone` leaves `first_buffer_` true. -/
theorem buffers_ready_idempotent (E : Env) (s : HSys) :
    ((httpsrc_prc_buffers_ready E s).1 = OMX_ErrorNone →
        (httpsrc_prc_buffers_ready E s).2.prc.first_buffer_ = false ∧
        ∀ (E1 : Env) (n : Nat),
          (fun t => (httpsrc_prc_buffers_ready E1 t).2)^[n] (httpsrc_prc_buffers_ready E s).2
              = (httpsrc_prc_buffers_ready E s).2 ∧
          httpsrc_prc_buffers_ready E1 (httpsrc_prc_buffers_ready E s).2
              = (OMX_ErrorNone, (httpsrc_prc_buffers_ready E s).2)) ∧
      ((httpsrc_prc_buffers_ready E s).1 ≠ OMX_ErrorNone →
        (httpsrc_prc_buffers_ready E s).2.prc.first_buffer_ = true) := by
  have hfix : ∀ (E1 : Env) (t : HSys), t.prc.first_buffer_ = false →
      httpsrc_prc_buffers_ready E1 t = (OMX_ErrorNone, t) := by
    intro E1 t ht
    simp [httpsrc_prc_buffers_ready, ht]
  have hfb : ∀ t : HSys, (frozen t.prc).2.1 = t.prc.first_buffer_ := fun _ => rfl
  constructor
  · intro h
    have hf : (httpsrc_prc_buffers_ready E s).2.prc.first_buffer_ = false := by
      cases hs : s.prc.first_buffer_ with
      | false => rw [hfix E s hs]; exact hs
      | true =>
        simp only [httpsrc_prc_buffers_ready, hs, tiz_check_omx_err,
          on_curl_multi_error_ret_omx_oom] at h ⊢
        repeat' split
        all_goals simp_all [Sys.set]
    refine ⟨hf, ?_⟩
    intro E1 n
    refine ⟨?_, hfix E1 _ hf⟩
    induction n with
    | zero => rfl
    | succ n ih => rw [Function.iterate_succ_apply, hfix E1 _ hf]; exact ih
  · intro h
    cases hs : s.prc.first_buffer_ with
    | false => rw [hfix E s hs] at h; exact absurd rfl h
    | true =>
      simp only [httpsrc_prc_buffers_ready, hs, tiz_check_omx_err,
        on_curl_multi_error_ret_omx_oom] at h ⊢
      have h1 := start_curl_handles_frozen E s
      have h2 := curl_multi_call_frozen E (Call.curl_multi_socket_action CURL_SOCKET_TIMEOUT 0)
        (start_curl_handles E s).2
      have e1 : (start_curl_handles E s).2.prc.first_buffer_ = true := by
        rw [← hfb, h1, hfb]; exact hs
      have e2 : (curl_multi_socket_action E CURL_SOCKET_TIMEOUT 0
          (start_curl_handles E s).2).2.prc.first_buffer_ = true := by
        unfold curl_multi_socket_action
        rw [← hfb, h2, hfb]; exact e1
      repeat' split
      all_goals simp_all

/-- Witness of C7: in the environment where every call succeeds the first call returns
`OMX_ErrorNone`, clears `first_buffer_` and a further call changes nothing; in the
environment where libcurl fails the call returns an error and `first_buffer_` stays true. -/
theorem buffers_ready_idempotent_witness :
    (httpsrc_prc_buffers_ready env_ok httpsrc_prepared).1 = OMX_ErrorNone ∧
      (httpsrc_prc_buffers_ready env_ok httpsrc_prepared).2.prc.first_buffer_ = false ∧
      httpsrc_prc_buffers_ready env_ok (httpsrc_prc_buffers_ready env_ok httpsrc_prepared).2
        = (OMX_ErrorNone, (httpsrc_prc_buffers_ready env_ok httpsrc_prepared).2) ∧
      (httpsrc_prc_buffers_ready env_curl_fails httpsrc_prepared).1 ≠ OMX_ErrorNone ∧
      (httpsrc_prc_buffers_ready env_curl_fails httpsrc_prepared).2.prc.first_buffer_ = true :=
  ⟨rfl,
    ((buffers_ready_idempotent env_ok httpsrc_prepared).1 rfl).1,
    (((buffers_ready_idempotent env_ok httpsrc_prepared).1 rfl).2 env_ok 1).2,
    by decide,
    (buffers_ready_idempotent env_curl_fails httpsrc_prepared).2 (by decide)⟩

theorem tiz_check_omx_err_keeps {β : Type} (π : httpsrc_prc_t → β)
    (r : OMX_ERRORTYPE × HSys) (k : HSys → OMX_ERRORTYPE × HSys) (x : β)
    (h1 : π r.2.prc = x) (h2 : ∀ t, π (k t).2.prc = π t.prc) :
    π (tiz_check_omx_err r k).2.prc = x := by
  simp only [tiz_check_omx_err]
  split
  · rw [h2]; exact h1
  · exact h1

theorem on_curl_multi_error_keeps {β : Type} (π : httpsrc_prc_t → β)
    (r : Nat × HSys) (k : HSys → OMX_ERRORTYPE × HSys) (x : β)
    (h1 : π r.2.prc = x) (h2 : ∀ t, π (k t).2.prc = π t.prc) :
    π (on_curl_multi_error_ret_omx_oom r k).2.prc = x := by
  simp only [on_curl_multi_error_ret_omx_oom]
  split
  · rw [h2]; exact h1
  · exact h1

theorem frozen_handles (p q : httpsrc_prc_t) (h : frozen p = frozen q) :
    resource_handles p = resource_handles q :=
  congrArg Prod.fst h

theorem io_ready_handles (E : Env) (a_fd a_events : Int) (s : HSys) :
    resource_handles (httpsrc_prc_io_ready E a_fd a_events s).2.prc = resource_handles s.prc := by
  apply frozen_handles
  simp only [httpsrc_prc_io_ready]
  split
  · apply tiz_check_omx_err_keeps frozen _ _ _ (stop_io_watcher_frozen E s)
    intro t
    apply tiz_check_omx_err_keeps frozen _ _ _ (restart_timer_watcher_frozen E t)
    intro t1
    apply on_curl_multi_error_keeps frozen _ _ _ (curl_multi_call_frozen E _ t1)
    intro t2
    apply tiz_check_omx_err_keeps frozen _ _ _ (start_io_watcher_frozen E t2)
    intro t3
    rfl
  · rfl

theorem timer_ready_handles (E : Env) (s : HSys) :
    resource_handles (httpsrc_prc_timer_ready E s).2.prc = resource_handles s.prc := by
  apply frozen_handles
  simp only [httpsrc_prc_timer_ready]
  split
  · apply tiz_check_omx_err_keeps frozen _ _ _ (restart_timer_watcher_frozen E s)
    intro t1
    apply on_curl_multi_error_keeps frozen _ _ _ (curl_multi_call_frozen E _ t1)
    intro t2
    rfl
  · rfl

theorem buffers_ready_handles (E : Env) (s : HSys) :
    resource_handles (httpsrc_prc_buffers_ready E s).2.prc = resource_handles s.prc := by
  simp only [httpsrc_prc_buffers_ready]
  split
  · apply tiz_check_omx_err_keeps resource_handles _ _ _
      (frozen_handles _ _ (start_curl_handles_frozen E s))
    intro t1
    apply on_curl_multi_error_keeps resource_handles _ _ _
      (frozen_handles _ _ (curl_multi_call_frozen E _ t1))
    intro t2
    rfl
  · rfl

theorem run_events_handles (E : Env) (evs : List Event) (s : HSys) :
    resource_handles (run_events E evs s).prc = resource_handles s.prc := by
  induction evs generalizing s with
  | nil => rfl
  | cons e rest ih =>
    cases e with
    | buffers_ready => simp only [run_events, deliver, ih, buffers_ready_handles]
    | io_ready a_fd a_events => simp only [run_events, deliver, ih, io_ready_handles]
    | timer_ready => simp only [run_events, deliver, ih, timer_ready_handles]

theorem stop_and_return_handles (E : Env) (s : HSys) :
    resource_handles (httpsrc_prc_stop_and_return E s).2.prc = resource_handles s.prc := by
  apply frozen_handles
  simp only [httpsrc_prc_stop_and_return]
  rw [release_buffer_frozen, stop_timer_watcher_frozen, stop_io_watcher_frozen]

theorem deallocate_resources_null (s : HSys) :
    (httpsrc_prc_deallocate_resources s).1 = OMX_ErrorNone ∧
      resources_null (httpsrc_prc_deallocate_resources s).2.prc := by
  simp [httpsrc_prc_deallocate_resources, resources_null, delete_uri, destroy_curl_resources,
    destroy_events, Sys.set, Sys.call]

theorem obtain_uri_curl_null (E : Env) (s : HSys) (h : curl_handles_null s.prc) :
    curl_handles_null (obtain_uri E s).2.prc := by
  simp only [obtain_uri]
  split <;> exact h

theorem allocate_events_curl_null (E : Env) (s : HSys) (h : curl_handles_null s.prc) :
    curl_handles_null (allocate_events E s).2.prc := by
  simp only [allocate_events, tiz_check_omx_err]
  repeat' split
  all_goals exact h

theorem allocate_curl_resources_error_null (E : Env) (s : HSys) (h : curl_handles_null s.prc)
    (herr : (allocate_curl_resources E s).1 ≠ OMX_ErrorNone) :
    curl_handles_null (allocate_curl_resources E s).2.prc := by
  obtain ⟨h1, h2, h3, h4⟩ := h
  simp only [allocate_curl_resources, allocate_curl_global_resources, bail_on_curl_error,
    bail_on_oom, tiz_check_omx_err, destroy_curl_resources, Sys.set, Sys.call] at herr ⊢
  repeat' split
  all_goals simp_all [curl_handles_null]

/-- C9 as stated fails: from the processor as constructed, in the environment where
libcurl fails, `httpsrc_prc_allocate_resources` returns
`OMX_ErrorInsufficientResources` and leaves `p_uri_param_`, `p_ev_io_` and `p_ev_timer_`
allocated. -/
theorem allocate_resources_leaves_uri_and_events :
    resources_null httpsrc_initial.prc ∧
      (httpsrc_prc_allocate_resources env_curl_fails httpsrc_initial).1
        = OMX_ErrorInsufficientResources ∧
      (httpsrc_prc_allocate_resources env_curl_fails httpsrc_initial).2.prc.p_uri_param_
        ≠ none ∧
      (httpsrc_prc_allocate_resources env_curl_fails httpsrc_initial).2.prc.p_ev_io_ ≠ none ∧
      (httpsrc_prc_allocate_resources env_curl_fails httpsrc_initial).2.prc.p_ev_timer_
        ≠ none ∧
      ¬ resources_null (httpsrc_prc_allocate_resources env_curl_fails httpsrc_initial).2.prc := by
  refine ⟨by decide, rfl, by decide, by decide, by decide, by decide⟩

/-- C9, amended: from a state whose resource handles are all `NULL`, whenever
`httpsrc_prc_allocate_resources` returns an error the four libcurl handles `p_curl_`,
`p_curl_multi_`, `p_http_ok_aliases_` and `p_http_headers_` are all `NULL` again, and all
seven resource handles are `NULL` after the `httpsrc_prc_deallocate_resources` that
follows. -/
theorem allocate_resources_error_curl_null (E : Env) (s : HSys) (h0 : resources_null s.prc)
    (herr : (httpsrc_prc_allocate_resources E s).1 ≠ OMX_ErrorNone) :
    curl_handles_null (httpsrc_prc_allocate_resources E s).2.prc ∧
      resources_null
        (httpsrc_prc_deallocate_resources (httpsrc_prc_allocate_resources E s).2).2.prc := by
  refine ⟨?_, (deallocate_resources_null _).2⟩
  have hc : curl_handles_null s.prc := ⟨h0.2.2.2.1, h0.2.2.2.2.1, h0.2.2.2.2.2.1, h0.2.2.2.2.2.2⟩
  have hu := obtain_uri_curl_null E s hc
  have he := allocate_events_curl_null E (obtain_uri E s).2 hu
  simp only [httpsrc_prc_allocate_resources, tiz_check_omx_err] at herr ⊢
  by_cases c1 : (obtain_uri E s).1 = OMX_ErrorNone
  · by_cases c2 : (allocate_events E (obtain_uri E s).2).1 = OMX_ErrorNone
    · by_cases c3 : (allocate_curl_resources E (allocate_events E (obtain_uri E s).2).2).1
          = OMX_ErrorNone
      · simp [c1, c2, c3] at herr
      · simp only [c1, c2, c3, if_true, if_false]
        exact allocate_curl_resources_error_null E _ he c3
    · simp only [c1, c2, if_true, if_false]
      exact he
  · simp only [c1, if_false]
    exact hu

/-- Witness of C9, amended, at the processor as constructed in the environment where
libcurl fails. -/
theorem allocate_resources_error_curl_null_witness :
    resources_null httpsrc_initial.prc ∧
      (httpsrc_prc_allocate_resources env_curl_fails httpsrc_initial).1 ≠ OMX_ErrorNone ∧
      curl_handles_null (httpsrc_prc_allocate_resources env_curl_fails httpsrc_initial).2.prc ∧
      resources_null (httpsrc_prc_deallocate_resources
        (httpsrc_prc_allocate_resources env_curl_fails httpsrc_initial).2).2.prc :=
  ⟨by decide, by decide,
    allocate_resources_error_curl_null env_curl_fails httpsrc_initial (by decide) (by decide)⟩

theorem allocate_curl_resources_ok (E : Env) (s : HSys)
    (hok : (allocate_curl_resources E s).1 = OMX_ErrorNone) :
    (allocate_curl_resources E s).2.prc.p_curl_.isSome = true ∧
      (allocate_curl_resources E s).2.prc.p_curl_multi_.isSome = true ∧
      (allocate_curl_resources E s).2.prc.p_http_ok_aliases_.isSome = true ∧
      (allocate_curl_resources E s).2.prc.p_http_headers_.isSome = true ∧
      (allocate_curl_resources E s).2.prc.p_uri_param_ = s.prc.p_uri_param_ := by
  simp only [allocate_curl_resources, allocate_curl_global_resources, bail_on_curl_error,
    bail_on_oom, tiz_check_omx_err, destroy_curl_resources, Sys.set, Sys.call] at hok ⊢
  repeat' split
  all_goals simp_all

theorem allocate_events_uri (E : Env) (s : HSys) :
    (allocate_events E s).2.prc.p_uri_param_ = s.prc.p_uri_param_ := by
  simp only [allocate_events, tiz_check_omx_err]
  repeat' split
  all_goals rfl

theorem obtain_uri_ok (E : Env) (s : HSys) (hok : (obtain_uri E s).1 = OMX_ErrorNone) :
    (obtain_uri E s).2.prc.p_uri_param_.isSome = true := by
  simp only [obtain_uri] at hok ⊢
  split
  · rename_i h; simp [h] at hok
  · rfl

theorem allocate_resources_ok (E : Env) (s : HSys)
    (hok : (httpsrc_prc_allocate_resources E s).1 = OMX_ErrorNone) :
    (httpsrc_prc_allocate_resources E s).2.prc.p_uri_param_.isSome = true ∧
      (httpsrc_prc_allocate_resources E s).2.prc.p_curl_.isSome = true ∧
      (httpsrc_prc_allocate_resources E s).2.prc.p_curl_multi_.isSome = true ∧
      (httpsrc_prc_allocate_resources E s).2.prc.p_http_ok_aliases_.isSome = true ∧
      (httpsrc_prc_allocate_resources E s).2.prc.p_http_headers_.isSome = true := by
  simp only [httpsrc_prc_allocate_resources, tiz_check_omx_err] at hok ⊢
  by_cases c1 : (obtain_uri E s).1 = OMX_ErrorNone
  · by_cases c2 : (allocate_events E (obtain_uri E s).2).1 = OMX_ErrorNone
    · by_cases c3 : (allocate_curl_resources E (allocate_events E (obtain_uri E s).2).2).1
          = OMX_ErrorNone
      · simp only [c1, c2, c3, if_true]
        obtain ⟨k1, k2, k3, k4, k5⟩ := allocate_curl_resources_ok E _ c3
        refine ⟨?_, k1, k2, k3, k4⟩
        rw [k5, allocate_events_uri]
        exact obtain_uri_ok E s c1
      · simp [c1, c2, c3] at hok
    · simp [c1, c2] at hok
  · simp [c1] at hok

/-- C10: from a state whose resource handles are all `NULL`, when
`httpsrc_prc_allocate_resources` succeeds (the URI block and the four libcurl handles are
then allocated) and is followed by `prepare_to_transfer`, any list of `buffers_ready`,
`io_ready` and `timer_ready` events, `stop_and_return` and
`httpsrc_prc_deallocate_resources`, then the handles are untouched until
`deallocate_resources`, which returns `OMX_ErrorNone` and leaves every resource handle
equal to its value before the allocation, `NULL`. -/
theorem resources_round_trip (E : Env) (evs : List Event) (s0 : HSys)
    (h0 : resources_null s0.prc)
    (hok : (httpsrc_prc_allocate_resources E s0).1 = OMX_ErrorNone) :
    ((httpsrc_prc_allocate_resources E s0).2.prc.p_uri_param_.isSome = true ∧
        (httpsrc_prc_allocate_resources E s0).2.prc.p_curl_.isSome = true ∧
        (httpsrc_prc_allocate_resources E s0).2.prc.p_curl_multi_.isSome = true ∧
        (httpsrc_prc_allocate_resources E s0).2.prc.p_http_ok_aliases_.isSome = true ∧
        (httpsrc_prc_allocate_resources E s0).2.prc.p_http_headers_.isSome = true) ∧
      resource_handles
        (round_trip_after_allocate E evs (httpsrc_prc_allocate_resources E s0).2).1.prc
        = resource_handles (httpsrc_prc_allocate_resources E s0).2.prc ∧
      (round_trip_after_allocate E evs (httpsrc_prc_allocate_resources E s0).2).2.1
        = OMX_ErrorNone ∧
      resources_null
        (round_trip_after_allocate E evs (httpsrc_prc_allocate_resources E s0).2).2.2.prc ∧
      resource_handles
        (round_trip_after_allocate E evs (httpsrc_prc_allocate_resources E s0).2).2.2.prc
        = resource_handles s0.prc := by
  have hd := deallocate_resources_null
    (round_trip_after_allocate E evs (httpsrc_prc_allocate_resources E s0).2).1
  refine ⟨allocate_resources_ok E s0 hok, ?_, hd.1, hd.2, ?_⟩
  · simp only [round_trip_after_allocate, stop_and_return_handles, run_events_handles]
    rfl
  · obtain ⟨a1, a2, a3, a4, a5, a6, a7⟩ := h0
    obtain ⟨b1, b2, b3, b4, b5, b6, b7⟩ := hd.2
    simp only [round_trip_after_allocate] at b1 b2 b3 b4 b5 b6 b7 ⊢
    simp only [resource_handles, a1, a2, a3, a4, a5, a6, a7, b1, b2, b3, b4, b5, b6, b7]

/-- Witness of C10: the processor as constructed, the environment `env_transfer` and the
events `events_transfer`: the allocation succeeds and after the round trip every resource
handle is `NULL` again. -/
theorem resources_round_trip_witness :
    resources_null httpsrc_initial.prc ∧
      (httpsrc_prc_allocate_resources env_transfer httpsrc_initial).1 = OMX_ErrorNone ∧
      ¬ resources_null (httpsrc_prc_allocate_resources env_transfer httpsrc_initial).2.prc ∧
      (round_trip_after_allocate env_transfer events_transfer
          (httpsrc_prc_allocate_resources env_transfer httpsrc_initial).2).2.1
        = OMX_ErrorNone ∧
      resources_null (round_trip_after_allocate env_transfer events_transfer
          (httpsrc_prc_allocate_resources env_transfer httpsrc_initial).2).2.2.prc :=
  ⟨by decide, rfl, by decide,
    (resources_round_trip env_transfer events_transfer httpsrc_initial (by decide) rfl).2.2.1,
    (resources_round_trip env_transfer events_transfer httpsrc_initial (by decide)
      rfl).2.2.2.1⟩

theorem bail_on_curl_error_ok_iff (E : Env) (c : Call) (s : HSys)
    (k : HSys → OMX_ERRORTYPE × HSys) :
    (bail_on_curl_error E c (fun s1 => (OMX_ErrorInsufficientResources, s1)) s k).1
        = OMX_ErrorNone ↔
      E.curl_rc (s.trace ++ [c]) = CURL_OK ∧ (k (s.call c)).1 = OMX_ErrorNone := by
  simp only [bail_on_curl_error, Sys.call]
  split
  · rename_i h
    simp [h]
  · rename_i h
    simp [h]

theorem ite_none_or_insufficient_iff (p : Prop) [Decidable p] (a b : HSys) :
    (if p then (OMX_ErrorNone, a) else (OMX_ErrorInsufficientResources, b)).1 = OMX_ErrorNone
      ↔ p := by
  split <;> simp [*]

theorem start_curl_handles_ok_iff (E : Env) (s : HSys) :
    (start_curl_handles E s).1 = OMX_ErrorNone ↔ start_curl_all_ok E s = true := by
  simp only [start_curl_handles, bail_on_curl_error_ok_iff, start_curl_all_ok, all_curl_ok,
    start_curl_setopts, Bool.and_eq_true, decide_eq_true_eq, Sys.call, curl_multi_call,
    List.append_assoc, List.cons_append, List.nil_append, List.singleton_append, and_assoc,
    Bool.true_and, Bool.and_true, and_true, ite_none_or_insufficient_iff]

theorem bail_on_oom_ok_iff (E : Env) (c : Call)
    (assign : httpsrc_prc_t → Option Nat → httpsrc_prc_t)
    (on_end : HSys → OMX_ERRORTYPE × HSys) (s : HSys) (k : HSys → OMX_ERRORTYPE × HSys)
    (h : ∀ t, (on_end t).1 = OMX_ErrorInsufficientResources) :
    (bail_on_oom E c assign on_end s k).1 = OMX_ErrorNone ↔
      (E.alloc (s.trace ++ [c])).isSome = true ∧
        (k ((s.call c).set (assign s.prc (E.alloc (s.trace ++ [c]))))).1 = OMX_ErrorNone := by
  simp only [bail_on_oom, Sys.call, Sys.set]
  split
  · rename_i h1
    simp [h1]
  · rename_i h1
    simp [h1, h]

theorem allocate_curl_resources_ok_iff (E : Env) (s : HSys) :
    (allocate_curl_resources E s).1 = OMX_ErrorNone ↔ allocate_curl_all_ok E s = true := by
  simp only [allocate_curl_resources, allocate_curl_global_resources, tiz_check_omx_err,
    allocate_curl_all_ok, Bool.and_eq_true, decide_eq_true_eq, and_assoc]
  by_cases h1 : E.curl_rc (s.trace ++ [Call.curl_global_init]) = CURL_OK
  · simp only [bail_on_curl_error, Sys.call, h1, if_true, true_and]
    rw [bail_on_oom_ok_iff _ _ _ _ _ _ (fun _ => rfl)]
    rw [bail_on_oom_ok_iff _ _ _ _ _ _ (fun _ => rfl)]
    rw [bail_on_oom_ok_iff _ _ _ _ _ _ (fun _ => rfl)]
    rw [bail_on_oom_ok_iff _ _ _ _ _ _ (fun _ => rfl)]
    simp only [Sys.call, Sys.set, and_true]
  · simp [bail_on_curl_error, Sys.call, h1]

theorem allocate_curl_resources_rc (E : Env) (s : HSys) :
    (allocate_curl_resources E s).1 = OMX_ErrorNone ∨
      (allocate_curl_resources E s).1 = OMX_ErrorInsufficientResources := by
  simp only [allocate_curl_resources, allocate_curl_global_resources, bail_on_curl_error,
    bail_on_oom, tiz_check_omx_err]
  repeat' split
  all_goals simp_all

/-- C11: `allocate_curl_resources` and `start_curl_handles` return `OMX_ErrorNone` or
`OMX_ErrorInsufficientResources` and no other value; each returns `OMX_ErrorNone` exactly
when all its libcurl calls succeed (every `CURLcode` / `CURLMcode` is OK and every pointer
returned is not `NULL`), so every failing libcurl call is reported as
`OMX_ErrorInsufficientResources`. -/
theorem curl_init_reports_insufficient_resources (E : Env) (s : HSys) :
    ((allocate_curl_resources E s).1 = OMX_ErrorNone ∨
        (allocate_curl_resources E s).1 = OMX_ErrorInsufficientResources) ∧
      ((allocate_curl_resources E s).1 = OMX_ErrorNone ↔ allocate_curl_all_ok E s = true) ∧
      ((start_curl_handles E s).1 = OMX_ErrorNone ∨
        (start_curl_handles E s).1 = OMX_ErrorInsufficientResources) ∧
      ((start_curl_handles E s).1 = OMX_ErrorNone ↔ start_curl_all_ok E s = true) :=
  ⟨allocate_curl_resources_rc E s, allocate_curl_resources_ok_iff E s,
    start_curl_handles_rc E s, start_curl_handles_ok_iff E s⟩

/-- C14, the code at the failing input: `httpsrc_prc_port_disable` releases the held
header and returns `OMX_ErrorNone`, but `port_disabled_` is still false; `buffer_needed`
then claims a header from the kernel and returns it, and `curl_write_cback` copies 100
bytes into it and releases it. -/
theorem port_disable_does_not_disable :
    httpsrc_prc_port_disable env_claim_out 0 httpsrc_executing_holding
        = (OMX_ErrorNone,
            { prc := httpsrc_executing.prc
              trace := [Call.tiz_krn_release_buffer 0 hdr_out] }) ∧
      (httpsrc_prc_port_disable env_claim_out 0 httpsrc_executing_holding).2.prc.port_disabled_
        = false ∧
      (buffer_needed env_claim_out
          (httpsrc_prc_port_disable env_claim_out 0 httpsrc_executing_holding).2).1
        = some hdr_out ∧
      (buffer_needed env_claim_out
          (httpsrc_prc_port_disable env_claim_out 0 httpsrc_executing_holding).2).2.trace
        = [Call.tiz_krn_release_buffer 0 hdr_out, Call.tiz_krn_claim_buffer 0 0] ∧
      (curl_write_cback env_claim_out 1 100
          (httpsrc_prc_port_disable env_claim_out 0 httpsrc_executing_holding).2).2.trace
        = [Call.tiz_krn_release_buffer 0 hdr_out,
            Call.tiz_event_io_stop (some 1),
            Call.tiz_event_io_set (some 1) 5 TIZ_EVENT_READ true,
            Call.tiz_krn_claim_buffer 0 0,
            Call.memcpy (some (hdr_out.pBuffer + hdr_out.nOffset)) 100,
            Call.tiz_krn_release_buffer 0 { hdr_out with nFilledLen := 100 }] := by
  refine ⟨rfl, rfl, rfl, rfl, rfl⟩

/-- C18: called with `p_curl_`, `p_curl_multi_`, `p_http_ok_aliases_` and
`p_http_headers_` all `NULL`, `allocate_curl_resources` either returns `OMX_ErrorNone`
with all four not `NULL`, or returns an error with all four `NULL`. -/
theorem allocate_curl_resources_atomic (E : Env) (s : HSys)
    (h : curl_handles_null s.prc) :
    ((allocate_curl_resources E s).1 = OMX_ErrorNone ∧
        (allocate_curl_resources E s).2.prc.p_curl_.isSome = true ∧
        (allocate_curl_resources E s).2.prc.p_curl_multi_.isSome = true ∧
        (allocate_curl_resources E s).2.prc.p_http_ok_aliases_.isSome = true ∧
        (allocate_curl_resources E s).2.prc.p_http_headers_.isSome = true) ∨
      ((allocate_curl_resources E s).1 ≠ OMX_ErrorNone ∧
        curl_handles_null (allocate_curl_resources E s).2.prc) := by
  by_cases c : (allocate_curl_resources E s).1 = OMX_ErrorNone
  · left
    obtain ⟨k1, k2, k3, k4, _⟩ := allocate_curl_resources_ok E s c
    exact ⟨c, k1, k2, k3, k4⟩
  · right
    exact ⟨c, allocate_curl_resources_error_null E s h c⟩

/-- Witness of C18 at the processor as constructed: with a libcurl that succeeds the
four handles are allocated; with a `curl_slist_append` that returns `NULL` after the easy
and multi handles were made, the call fails and all four handles are `NULL`. -/
theorem allocate_curl_resources_atomic_witness :
    curl_handles_null httpsrc_initial.prc ∧
      (allocate_curl_resources env_ok httpsrc_initial).1 = OMX_ErrorNone ∧
      ¬ curl_handles_null (allocate_curl_resources env_ok httpsrc_initial).2.prc ∧
      (allocate_curl_resources env_append_fails httpsrc_initial).1
        = OMX_ErrorInsufficientResources ∧
      curl_handles_null (allocate_curl_resources env_append_fails httpsrc_initial).2.prc :=
  ⟨by decide, rfl, by decide, rfl,
    ((allocate_curl_resources_atomic env_append_fails httpsrc_initial (by decide)).resolve_left
      (by decide)).2⟩

/-- C19, the code at the failing input: no header is held and the kernel has none to give;
libcurl passes 100 bytes and `curl_write_cback` returns 100 although it copied nothing
(no `memcpy`, no release). -/
theorem curl_write_cback_returns_nbytes_without_copy :
    (buffer_needed env_ok
        (Sys.call (stop_io_watcher env_ok httpsrc_executing).2
          (Call.tiz_event_io_set (some 1) 5 TIZ_EVENT_READ true))).1 = none ∧
      curl_write_cback env_ok 1 100 httpsrc_executing
        = (100,
            { prc := { httpsrc_executing.prc with awaiting_io_ev_ := false }
              trace := [Call.tiz_event_io_stop (some 1),
                Call.tiz_event_io_set (some 1) 5 TIZ_EVENT_READ true,
                Call.tiz_krn_claim_buffer 0 0] }) := by
  refine ⟨rfl, rfl⟩

/-- C20, the code at the failing input: for a header line of one byte (`size = 1`,
`nmemb = 1`) `curl_header_cback` allocates 2 bytes and writes the terminator at index
`2 ^ 64 - 1`, which is `(size * nmemb) - 2` in `size_t`, outside the block. -/
theorem curl_header_cback_writes_out_of_bounds :
    curl_header_cback env_ok 1 1 httpsrc_executing
        = (1,
            { prc := httpsrc_executing.prc
              trace := [Call.tiz_mem_calloc 1 2, Call.memcpy (some 2) 1,
                Call.store (some 2) (2 ^ 64 - 1), Call.tiz_mem_free true] }) ∧
      curl_header_cback_index 1 1 = 2 ^ 64 - 1 ∧
      ¬ (curl_header_cback_index 1 1 < 1 * 1 + 1) := by
  refine ⟨?_, by decide, by decide⟩
  rfl

theorem replay_append (E : Env) (hist d1 d2 : List Call) (o : Owed) :
    replay E hist (d1 ++ d2) o
      = (replay E hist d1 o).bind (fun o1 => replay E (hist ++ d1) d2 o1) := by
  induction d1 generalizing hist o with
  | nil => simp [replay]
  | cons c rest ih =>
    simp only [List.cons_append, replay]
    cases h : replay_call E hist c o with
    | none => simp
    | some o1 =>
      show replay E (hist ++ [c]) (rest ++ d2) o1
        = (replay E (hist ++ [c]) rest o1).bind fun o2 => replay E (hist ++ c :: rest) d2 o2
      rw [ih]
      simp only [List.append_assoc, List.singleton_append]

theorem disciplined_refl (E : Env) (s : VSys) : disciplined E s s :=
  ⟨[], by simp, rfl⟩

theorem disciplined_trans (E : Env) (s t u : VSys) (h1 : disciplined E s t)
    (h2 : disciplined E t u) : disciplined E s u := by
  obtain ⟨d1, e1, r1⟩ := h1
  obtain ⟨d2, e2, r2⟩ := h2
  refine ⟨d1 ++ d2, by rw [e2, e1, List.append_assoc], ?_⟩
  rw [replay_append, r1]
  show replay E (s.trace ++ d1) d2 (owed_of t.prc) = some (owed_of u.prc)
  rw [← e1]
  exact r2

theorem claim_input_disciplined (E : Env) (s : VSys) (h : s.prc.pinhdr_ = none) :
    disciplined E s (claim_input E s).2 := by
  simp only [claim_input, tiz_check_omx_err_in_bool]
  split
  · split
    · split
      · exact ⟨[Call.tiz_krn_select 2, Call.tiz_krn_claim_buffer 0 0],
          by simp [Sys.call, Sys.set],
          by simp [replay, replay_call, owed_of, h, Sys.call, Sys.set]⟩
      · exact ⟨[Call.tiz_krn_select 2, Call.tiz_krn_claim_buffer 0 0],
          by simp [Sys.call, Sys.set],
          by simp [replay, replay_call, owed_of, h, Sys.call, Sys.set]⟩
    · exact ⟨[Call.tiz_krn_select 2], by simp [Sys.call],
        by simp [replay, replay_call, Sys.call]⟩
  · exact ⟨[Call.tiz_krn_select 2], by simp [Sys.call],
      by simp [replay, replay_call, Sys.call]⟩

theorem claim_output_disciplined (E : Env) (s : VSys) (h : s.prc.pouthdr_ = none) :
    disciplined E s (claim_output E s).2 := by
  simp only [claim_output, tiz_check_omx_err_in_bool]
  split
  · split
    · split
      · exact ⟨[Call.tiz_krn_select 2, Call.tiz_krn_claim_buffer 1 0],
          by simp [Sys.call, Sys.set],
          by simp [replay, replay_call, owed_of, h, Sys.call, Sys.set]⟩
      · exact ⟨[Call.tiz_krn_select 2, Call.tiz_krn_claim_buffer 1 0],
          by simp [Sys.call, Sys.set],
          by simp [replay, replay_call, owed_of, h, Sys.call, Sys.set]⟩
    · exact ⟨[Call.tiz_krn_select 2], by simp [Sys.call],
        by simp [replay, replay_call, Sys.call]⟩
  · exact ⟨[Call.tiz_krn_select 2], by simp [Sys.call],
      by simp [replay, replay_call, Sys.call]⟩

theorem release_consumed_input_disciplined (E : Env) (s : VSys) :
    disciplined E s (release_consumed_input s) := by
  simp only [release_consumed_input]
  split
  · rename_i hdr h
    split
    · exact ⟨[Call.tiz_krn_release_buffer 0 { hdr with nOffset := 0 }],
        by simp [Sys.call, Sys.set],
        by simp [replay, replay_call, owed_of, h, Sys.call, Sys.set]⟩
    · exact disciplined_refl E s
  · exact disciplined_refl E s

theorem vp8e_propagate_eos_disciplined (E : Env) (s : VSys) :
    disciplined E s (vp8e_propagate_eos s).2 := by
  simp only [vp8e_propagate_eos]
  split
  · rename_i hdr h
    split
    · exact ⟨[Call.tiz_krn_release_buffer 1
          { hdr with nFlags := hdr.nFlags ||| OMX_BUFFERFLAG_EOS }],
        by simp [Sys.call, Sys.set],
        by simp [replay, replay_call, owed_of, h, Sys.call, Sys.set]⟩
    · exact disciplined_refl E s
  · exact disciplined_refl E s

theorem loop_claim_input_disciplined (E : Env) (s : VSys) :
    disciplined E s (loop_claim_input E s).2 := by
  simp only [loop_claim_input]
  split
  · rename_i h
    exact claim_input_disciplined E s (Option.isNone_iff_eq_none.mp h)
  · exact disciplined_refl E s

theorem loop_claim_output_disciplined (E : Env) (s : VSys) :
    disciplined E s (loop_claim_output E s).2 := by
  simp only [loop_claim_output]
  split
  · rename_i h
    exact claim_output_disciplined E s (Option.isNone_iff_eq_none.mp h)
  · exact disciplined_refl E s

theorem vp8e_loop_body_disciplined (E : Env) (s : VSys) :
    disciplined E s (vp8e_loop_body E s).2 := by
  have h1 := loop_claim_input_disciplined E s
  have h2 := loop_claim_output_disciplined E (loop_claim_input E s).2
  simp only [vp8e_loop_body, vp8e_proc_transform_buffer]
  split
  · exact h1
  · split
    · exact disciplined_trans E _ _ _ h1 h2
    · simp only [if_true]
      exact disciplined_trans E _ _ _ (disciplined_trans E _ _ _ h1 h2)
        (release_consumed_input_disciplined E _)

theorem vp8e_loop_disciplined (E : Env) (fuel : Nat) (s : VSys) (r : LoopStep × VSys)
    (h : vp8e_loop E fuel s = some r) : disciplined E s r.2 := by
  induction fuel generalizing s with
  | zero => simp [vp8e_loop] at h
  | succ n ih =>
    have hb := vp8e_loop_body_disciplined E s
    simp only [vp8e_loop] at h
    split at h
    · rename_i s1 heq
      rw [heq] at hb
      exact disciplined_trans E _ _ _ hb (ih s1 h)
    · cases h
      exact hb

/-- C13: whenever `vp8e_proc_buffers_ready` returns, the calls it made keep the port
discipline: every claim on port 0 (port 1) was made while `pinhdr_` (`pouthdr_`) was
`NULL` and its answer was stored there, every release on port 0 (port 1) released the
header held in `pinhdr_` (`pouthdr_`), no other port index was used, and the headers held
at the end are the ones still owed; each of the two release statements leaves its pointer
`NULL`. -/
theorem vp8e_headers_released_on_their_port (E : Env) (fuel : Nat) (s : VSys)
    (r : OMX_ERRORTYPE × VSys) (h : vp8e_proc_buffers_ready E fuel s = some r) :
    disciplined E s r.2 ∧
      (∀ t : VSys, (release_consumed_input t).prc.pinhdr_ = none ∨
        release_consumed_input t = t) ∧
      (∀ t : VSys, (vp8e_propagate_eos t).2.prc.pouthdr_ = none ∨
        (vp8e_propagate_eos t).2 = t) := by
  refine ⟨?_, ?_, ?_⟩
  · simp only [vp8e_proc_buffers_ready] at h
    split at h
    · cases h
    · rename_i rc s1 heq
      cases h
      exact vp8e_loop_disciplined E fuel s _ heq
    · rename_i x s1 hne heq
      cases h
      exact disciplined_trans E _ _ _ (vp8e_loop_disciplined E fuel s _ heq)
        (vp8e_propagate_eos_disciplined E s1)
  · intro t
    simp only [release_consumed_input]
    split
    · split
      · left; rfl
      · right; rfl
    · right; rfl
  · intro t
    simp only [vp8e_propagate_eos]
    split
    · split
      · left; rfl
      · right; rfl
    · right; rfl

/-- Witness of C13: the run of `vp8e_proc_buffers_ready` in the environment `env_eos`,
which claims on ports 0 and 1 and releases on port 0, keeps the port discipline; a release
of the input header on port 1 would break it. -/
theorem vp8e_headers_released_on_their_port_witness :
    vp8e_proc_buffers_ready env_eos 2 vp8e_initial = some (OMX_ErrorNone, vp8e_after_eos) ∧
      disciplined env_eos vp8e_initial vp8e_after_eos ∧
      replay env_eos [] vp8e_after_eos.trace (none, none) = some (none, some hdr_out.pBuffer) ∧
      replay env_eos [] [Call.tiz_krn_release_buffer 1 hdr_in_eos]
        (some hdr_in_eos.pBuffer, none) = none :=
  ⟨rfl,
    (vp8e_headers_released_on_their_port env_eos 2 vp8e_initial (OMX_ErrorNone, vp8e_after_eos)
      rfl).1,
    rfl, rfl⟩

/-- C15: whatever `tiz_comp_init` and `tiz_comp_register_roles` return, the file
reader's `OMX_ComponentInit` registers exactly four roles, in the order
audio_reader.binary, video_reader.binary, image_reader.binary, other_reader.binary; each
has `nports = 1` and one data port, an output port of the domain named by the role with
minimum buffer count 2 and minimum buffer size 1024; all four have the same config-port
factory and the same processor factory. -/
theorem fr_component_init_registers_four_roles (rc_init rc_roles : OMX_ERRORTYPE) :
    (registered_roles (fr.OMX_ComponentInit rc_init rc_roles).2).map (fun r => r.role)
        = ["audio_reader.binary", "video_reader.binary", "image_reader.binary",
            "other_reader.binary"] ∧
      (registered_roles (fr.OMX_ComponentInit rc_init rc_roles).2).map (fun r => r.nports)
        = [1, 1, 1, 1] ∧
      (registered_roles (fr.OMX_ComponentInit rc_init rc_roles).2).map
          (fun r => (role_ports r).map
            (fun o => (o.domain, o.dir, o.min_buf_count, o.min_buf_size)))
        = [[(OMX_PORTDOMAINTYPE.OMX_PortDomainAudio, OMX_DIRTYPE.OMX_DirOutput, 2, 1024)],
            [(OMX_PORTDOMAINTYPE.OMX_PortDomainVideo, OMX_DIRTYPE.OMX_DirOutput, 2, 1024)],
            [(OMX_PORTDOMAINTYPE.OMX_PortDomainImage, OMX_DIRTYPE.OMX_DirOutput, 2, 1024)],
            [(OMX_PORTDOMAINTYPE.OMX_PortDomainOther, OMX_DIRTYPE.OMX_DirOutput, 2, 1024)]] ∧
      (∀ r ∈ registered_roles (fr.OMX_ComponentInit rc_init rc_roles).2,
        r.pf_cport = fr_factory.instantiate_config_port ∧
        r.pf_proc = fr_factory.instantiate_processor ∧
        r.pf_port.length = 1) := by
  refine ⟨rfl, rfl, rfl, ?_⟩
  intro r hr
  simp only [fr.OMX_ComponentInit, registered_roles, List.take, List.append_nil,
    List.mem_cons, List.mem_singleton, List.not_mem_nil, or_false] at hr
  rcases hr with h | h | h | h <;> subst h <;> exact ⟨rfl, rfl, rfl⟩

/-- C16 (for the state machine modelled from the spec): from Loaded the commands
StateSet(Idle), StateSet(Executing), StateSet(Idle), StateSet(Loaded), the hooks
succeeding, each reach the requested state and produce one command-complete event that
carries it, after which `OMX_GetState` returns it, and the four transitions of
`test_vp8_playback` pass; every legal request whose hooks succeed does the same; and every
request that is not an edge of the table produces one error event with
`OMX_ErrorIncorrectStateTransition` and leaves the state as it was. -/
theorem state_transitions_follow_table :
    serve_state_sets OMX_STATETYPE.OMX_StateLoaded
        [(OMX_STATETYPE.OMX_StateIdle, OMX_ErrorNone),
          (OMX_STATETYPE.OMX_StateExecuting, OMX_ErrorNone),
          (OMX_STATETYPE.OMX_StateIdle, OMX_ErrorNone),
          (OMX_STATETYPE.OMX_StateLoaded, OMX_ErrorNone)]
        = [(OMX_STATETYPE.OMX_StateIdle,
              ILEvent.cmd_complete_state_set OMX_STATETYPE.OMX_StateIdle),
            (OMX_STATETYPE.OMX_StateExecuting,
              ILEvent.cmd_complete_state_set OMX_STATETYPE.OMX_StateExecuting),
            (OMX_STATETYPE.OMX_StateIdle,
              ILEvent.cmd_complete_state_set OMX_STATETYPE.OMX_StateIdle),
            (OMX_STATETYPE.OMX_StateLoaded,
              ILEvent.cmd_complete_state_set OMX_STATETYPE.OMX_StateLoaded)] ∧
      test_transitions OMX_ErrorNone = true ∧
      (∀ cur req : OMX_STATETYPE, legal_transition cur req = true →
        state_set cur req OMX_ErrorNone = (req, ILEvent.cmd_complete_state_set req) ∧
        OMX_GetState (state_set cur req OMX_ErrorNone).1 = (OMX_ErrorNone, req)) ∧
      (∀ (cur req : OMX_STATETYPE) (hooks_rc : OMX_ERRORTYPE),
        legal_transition cur req = false →
        state_set cur req hooks_rc = (cur, ILEvent.error OMX_ErrorIncorrectStateTransition) ∧
        OMX_GetState (state_set cur req hooks_rc).1 = (OMX_ErrorNone, cur)) := by
  refine ⟨rfl, rfl, ?_, ?_⟩
  · intro cur req h
    simp [state_set, h, OMX_GetState]
  · intro cur req hooks_rc h
    simp [state_set, h, OMX_GetState]

/-- Witness of C16: the edge from Loaded to Idle is served, the requests from Loaded to
Executing and from Executing to Loaded are not edges and fail. -/
theorem state_transitions_follow_table_witness :
    state_set OMX_STATETYPE.OMX_StateLoaded OMX_STATETYPE.OMX_StateIdle OMX_ErrorNone
        = (OMX_STATETYPE.OMX_StateIdle,
            ILEvent.cmd_complete_state_set OMX_STATETYPE.OMX_StateIdle) ∧
      state_set OMX_STATETYPE.OMX_StateLoaded OMX_STATETYPE.OMX_StateExecuting OMX_ErrorNone
        = (OMX_STATETYPE.OMX_StateLoaded,
            ILEvent.error OMX_ErrorIncorrectStateTransition) ∧
      state_set OMX_STATETYPE.OMX_StateExecuting OMX_STATETYPE.OMX_StateLoaded OMX_ErrorNone
        = (OMX_STATETYPE.OMX_StateExecuting,
            ILEvent.error OMX_ErrorIncorrectStateTransition) :=
  ⟨(state_transitions_follow_table.2.2.1 OMX_STATETYPE.OMX_StateLoaded
      OMX_STATETYPE.OMX_StateIdle rfl).1,
    (state_transitions_follow_table.2.2.2 OMX_STATETYPE.OMX_StateLoaded
      OMX_STATETYPE.OMX_StateExecuting OMX_ErrorNone rfl).1,
    (state_transitions_follow_table.2.2.2 OMX_STATETYPE.OMX_StateExecuting
      OMX_STATETYPE.OMX_StateLoaded OMX_ErrorNone rfl).1⟩

/-- C24, the code at the failing input: when `tiz_krn_select` fails, `claim_input` and
`claim_output` return true although `pinhdr_` and `pouthdr_` are `NULL`; and when the
select of `claim_output` fails after an input header was claimed, the pass through the loop
of `vp8e_proc_buffers_ready` does not break: it goes on to `vp8e_proc_transform_buffer`
with `pouthdr_` `NULL` and ends the pass. -/
theorem vp8e_claim_returns_true_without_header :
    claim_input env_select_fails vp8e_initial
        = (true, { prc := vp8e_proc_ctor, trace := [Call.tiz_krn_select 2] }) ∧
      (claim_input env_select_fails vp8e_initial).2.prc.pinhdr_ = none ∧
      claim_output env_select_fails vp8e_initial
        = (true, { prc := vp8e_proc_ctor, trace := [Call.tiz_krn_select 2] }) ∧
      (claim_output env_select_fails vp8e_initial).2.prc.pouthdr_ = none ∧
      loop_claim_output env_second_select_fails
          (loop_claim_input env_second_select_fails vp8e_initial).2
        = (false,
            { prc := { pinhdr_ := some hdr_in_data, pouthdr_ := none, eos_ := false }
              trace := [Call.tiz_krn_select 2, Call.tiz_krn_claim_buffer 0 0,
                Call.tiz_krn_select 2] }) ∧
      vp8e_loop_body env_second_select_fails vp8e_initial
        = (LoopStep.again,
            { prc := { pinhdr_ := some hdr_in_data, pouthdr_ := none, eos_ := false }
              trace := [Call.tiz_krn_select 2, Call.tiz_krn_claim_buffer 0 0,
                Call.tiz_krn_select 2] }) := by
  refine ⟨rfl, rfl, rfl, rfl, rfl, rfl⟩

theorem icer_component_init_meets_spec (rc_init rc_roles : OMX_ERRORTYPE) :
    ((icer.OMX_ComponentInit rc_init rc_roles).1,
        icer_init_calls (icer.OMX_ComponentInit rc_init rc_roles).2)
      = component_init_spec rc_init rc_roles := by
  simp only [icer.OMX_ComponentInit, component_init_spec]
  split
  · rfl
  · split
    · rfl
    · rename_i h1 h2
      have e : rc_roles = OMX_ErrorNone := not_not.mp h2
      subst e
      rfl

/-- C25, the code at the failing input: when `tiz_comp_init` fails with
`OMX_ErrorInsufficientResources`, the HTTP renderer's `OMX_ComponentInit` returns that
error without calling `tiz_comp_register_roles`, as specified, but the file reader's
`OMX_ComponentInit` calls `tiz_comp_register_roles` and returns `OMX_ErrorNone`; it also
returns `OMX_ErrorNone` when `tiz_comp_register_roles` fails. -/
theorem fr_component_init_ignores_errors :
    component_init_spec OMX_ErrorInsufficientResources OMX_ErrorNone
        = (OMX_ErrorInsufficientResources, [InitCall.tiz_comp_init]) ∧
      ((icer.OMX_ComponentInit OMX_ErrorInsufficientResources OMX_ErrorNone).1,
          icer_init_calls (icer.OMX_ComponentInit OMX_ErrorInsufficientResources OMX_ErrorNone).2)
        = (OMX_ErrorInsufficientResources, [InitCall.tiz_comp_init]) ∧
      ((fr.OMX_ComponentInit OMX_ErrorInsufficientResources OMX_ErrorNone).1,
          fr_init_calls (fr.OMX_ComponentInit OMX_ErrorInsufficientResources OMX_ErrorNone).2)
        = (OMX_ErrorNone, [InitCall.tiz_comp_init, InitCall.tiz_comp_register_roles]) ∧
      (fr.OMX_ComponentInit OMX_ErrorNone OMX_ErrorBadParameter).1 = OMX_ErrorNone ∧
      (icer.OMX_ComponentInit OMX_ErrorNone OMX_ErrorBadParameter).1 = OMX_ErrorBadParameter := by
  refine ⟨rfl, rfl, rfl, rfl, rfl⟩

theorem set_vorbis_settings_get_fails (E : GraphEnv) (s : GSys)
    (h1 : E.omx_rc (s.trace ++ [GraphCall.OMX_GetParameter_AudioVorbis 1
        (TIZ_INIT_OMX_PORT_STRUCT 0)]) ≠ OMX_ErrorNone) :
    vorbisdecops.set_vorbis_settings E s
      = some (E.omx_rc (s.trace ++ [GraphCall.OMX_GetParameter_AudioVorbis 1
          (TIZ_INIT_OMX_PORT_STRUCT 0)]),
        { ops := s.ops
          trace := s.trace ++ [GraphCall.OMX_GetParameter_AudioVorbis 1
            (TIZ_INIT_OMX_PORT_STRUCT 0)] }) := by
  simp only [vorbisdecops.set_vorbis_settings, GSys.call, h1, ne_eq, not_false_eq_true,
    if_true]

theorem set_vorbis_settings_set_fails (E : GraphEnv) (s : GSys) (p : tiz_probe)
    (hp : s.ops.probe_ptr_ = some p)
    (h1 : E.omx_rc (s.trace ++ [GraphCall.OMX_GetParameter_AudioVorbis 1
        (TIZ_INIT_OMX_PORT_STRUCT 0)]) = OMX_ErrorNone)
    (h3 : E.omx_rc (s.trace ++ [GraphCall.OMX_GetParameter_AudioVorbis 1
        (TIZ_INIT_OMX_PORT_STRUCT 0)] ++ [GraphCall.get_vorbis_codec_info p] ++
        [GraphCall.OMX_SetParameter_AudioVorbis 1
          { E.get_vorbis_codec_info p.uri_ (TIZ_INIT_OMX_PORT_STRUCT 0) with
            nPortIndex := 0 }]) ≠ OMX_ErrorNone) :
    vorbisdecops.set_vorbis_settings E s
      = some (E.omx_rc (s.trace ++ [GraphCall.OMX_GetParameter_AudioVorbis 1
          (TIZ_INIT_OMX_PORT_STRUCT 0)] ++ [GraphCall.get_vorbis_codec_info p] ++
          [GraphCall.OMX_SetParameter_AudioVorbis 1
            { E.get_vorbis_codec_info p.uri_ (TIZ_INIT_OMX_PORT_STRUCT 0) with
              nPortIndex := 0 }]),
        { ops := s.ops
          trace := s.trace ++ [GraphCall.OMX_GetParameter_AudioVorbis 1
            (TIZ_INIT_OMX_PORT_STRUCT 0)] ++ [GraphCall.get_vorbis_codec_info p] ++
            [GraphCall.OMX_SetParameter_AudioVorbis 1
              { E.get_vorbis_codec_info p.uri_ (TIZ_INIT_OMX_PORT_STRUCT 0) with
                nPortIndex := 0 }] }) := by
  simp only [vorbisdecops.set_vorbis_settings, GSys.call, h1, hp, ne_eq, not_true_eq_false,
    if_false]
  rw [if_pos h3]

theorem set_vorbis_settings_set_ok (E : GraphEnv) (s : GSys) (p : tiz_probe)
    (hp : s.ops.probe_ptr_ = some p)
    (h1 : E.omx_rc (s.trace ++ [GraphCall.OMX_GetParameter_AudioVorbis 1
        (TIZ_INIT_OMX_PORT_STRUCT 0)]) = OMX_ErrorNone)
    (h3 : E.omx_rc (s.trace ++ [GraphCall.OMX_GetParameter_AudioVorbis 1
        (TIZ_INIT_OMX_PORT_STRUCT 0)] ++ [GraphCall.get_vorbis_codec_info p] ++
        [GraphCall.OMX_SetParameter_AudioVorbis 1
          { E.get_vorbis_codec_info p.uri_ (TIZ_INIT_OMX_PORT_STRUCT 0) with
            nPortIndex := 0 }]) = OMX_ErrorNone) :
    vorbisdecops.set_vorbis_settings E s
      = some (OMX_ErrorNone,
        { ops := { s.ops with
            need_port_settings_changed_evt_ :=
              decide ((E.get_vorbis_codec_info p.uri_ (TIZ_INIT_OMX_PORT_STRUCT 0)).nSampleRate
                  ≠ (E.get_parameter (s.trace ++ [GraphCall.OMX_GetParameter_AudioVorbis 1
                    (TIZ_INIT_OMX_PORT_STRUCT 0)]) (TIZ_INIT_OMX_PORT_STRUCT 0)).nSampleRate
                ∨ (E.get_vorbis_codec_info p.uri_ (TIZ_INIT_OMX_PORT_STRUCT 0)).nChannels
                  ≠ (E.get_parameter (s.trace ++ [GraphCall.OMX_GetParameter_AudioVorbis 1
                    (TIZ_INIT_OMX_PORT_STRUCT 0)]) (TIZ_INIT_OMX_PORT_STRUCT 0)).nChannels) }
          trace := s.trace ++ [GraphCall.OMX_GetParameter_AudioVorbis 1
            (TIZ_INIT_OMX_PORT_STRUCT 0)] ++ [GraphCall.get_vorbis_codec_info p] ++
            [GraphCall.OMX_SetParameter_AudioVorbis 1
              { E.get_vorbis_codec_info p.uri_ (TIZ_INIT_OMX_PORT_STRUCT 0) with
                nPortIndex := 0 }] }) := by
  simp only [vorbisdecops.set_vorbis_settings, GSys.call, h1, hp, ne_eq, not_true_eq_false,
    if_false]
  rw [if_neg (not_not.mpr h3)]
  split
  · rename_i hc
    have hd : (¬ (E.get_vorbis_codec_info p.uri_ (TIZ_INIT_OMX_PORT_STRUCT 0)).nSampleRate
        = (E.get_parameter (s.trace ++ [GraphCall.OMX_GetParameter_AudioVorbis 1
            (TIZ_INIT_OMX_PORT_STRUCT 0)]) (TIZ_INIT_OMX_PORT_STRUCT 0)).nSampleRate
        ∨ ¬ (E.get_vorbis_codec_info p.uri_ (TIZ_INIT_OMX_PORT_STRUCT 0)).nChannels
        = (E.get_parameter (s.trace ++ [GraphCall.OMX_GetParameter_AudioVorbis 1
            (TIZ_INIT_OMX_PORT_STRUCT 0)]) (TIZ_INIT_OMX_PORT_STRUCT 0)).nChannels) := by
      rcases hc with h | h
      · exact Or.inl (fun e => h e.symm)
      · exact Or.inr (fun e => h e.symm)
    rw [decide_eq_true hd]
  · rename_i hc
    have hd : ¬ (¬ (E.get_vorbis_codec_info p.uri_ (TIZ_INIT_OMX_PORT_STRUCT 0)).nSampleRate
        = (E.get_parameter (s.trace ++ [GraphCall.OMX_GetParameter_AudioVorbis 1
            (TIZ_INIT_OMX_PORT_STRUCT 0)]) (TIZ_INIT_OMX_PORT_STRUCT 0)).nSampleRate
        ∨ ¬ (E.get_vorbis_codec_info p.uri_ (TIZ_INIT_OMX_PORT_STRUCT 0)).nChannels
        = (E.get_parameter (s.trace ++ [GraphCall.OMX_GetParameter_AudioVorbis 1
            (TIZ_INIT_OMX_PORT_STRUCT 0)]) (TIZ_INIT_OMX_PORT_STRUCT 0)).nChannels) := by
      intro h
      apply hc
      rcases h with h | h
      · exact Or.inl (fun e => h e.symm)
      · exact Or.inr (fun e => h e.symm)
    rw [decide_eq_false hd]

/-- C27: with a probe held, `set_vorbis_settings` returns. It returns `OMX_ErrorNone`
exactly when `OMX_GetParameter` and `OMX_SetParameter` both succeed, and then
`is_port_settings_evt_required` is true if and only if the sample rate or the channel
count of the probed stream differs from what the decoder's port 0 reported before the set,
no other member being changed. When `OMX_GetParameter` fails (with or without a probe
held), or `OMX_SetParameter` fails, that error is returned and the object, the flag
included, is as it was. -/
theorem set_vorbis_settings_records_change (E : GraphEnv) (s : GSys) :
    (E.omx_rc (s.trace ++ [GraphCall.OMX_GetParameter_AudioVorbis 1
        (TIZ_INIT_OMX_PORT_STRUCT 0)]) ≠ OMX_ErrorNone →
      ∃ r, vorbisdecops.set_vorbis_settings E s = some r ∧
        r.1 = E.omx_rc (s.trace ++ [GraphCall.OMX_GetParameter_AudioVorbis 1
          (TIZ_INIT_OMX_PORT_STRUCT 0)]) ∧
        r.2.ops = s.ops) ∧
    ∀ p, s.ops.probe_ptr_ = some p →
      let t1 := s.trace ++ [GraphCall.OMX_GetParameter_AudioVorbis 1
        (TIZ_INIT_OMX_PORT_STRUCT 0)]
      let reported := E.get_parameter t1 (TIZ_INIT_OMX_PORT_STRUCT 0)
      let probed := E.get_vorbis_codec_info p.uri_ (TIZ_INIT_OMX_PORT_STRUCT 0)
      let t3 := t1 ++ [GraphCall.get_vorbis_codec_info p] ++
        [GraphCall.OMX_SetParameter_AudioVorbis 1 { probed with nPortIndex := 0 }]
      ∃ r, vorbisdecops.set_vorbis_settings E s = some r ∧
        (r.1 = OMX_ErrorNone ↔ E.omx_rc t1 = OMX_ErrorNone ∧ E.omx_rc t3 = OMX_ErrorNone) ∧
        (r.1 = OMX_ErrorNone →
          (vorbisdecops.is_port_settings_evt_required r.2.ops = true ↔
            (probed.nSampleRate ≠ reported.nSampleRate
              ∨ probed.nChannels ≠ reported.nChannels)) ∧
          r.2.ops = { s.ops with
            need_port_settings_changed_evt_ :=
              vorbisdecops.is_port_settings_evt_required r.2.ops }) ∧
        (E.omx_rc t1 ≠ OMX_ErrorNone → r.1 = E.omx_rc t1 ∧ r.2.ops = s.ops) ∧
        (E.omx_rc t1 = OMX_ErrorNone → E.omx_rc t3 ≠ OMX_ErrorNone →
          r.1 = E.omx_rc t3 ∧ r.2.ops = s.ops) := by
  refine ⟨fun h1 => ⟨_, set_vorbis_settings_get_fails E s h1, rfl, rfl⟩, fun p hp => ?_⟩
  intro t1 reported probed t3
  by_cases h1 : E.omx_rc t1 = OMX_ErrorNone
  · by_cases h3 : E.omx_rc t3 = OMX_ErrorNone
    · refine ⟨_, set_vorbis_settings_set_ok E s p hp h1 h3, ?_, ?_, ?_, ?_⟩
      · exact ⟨fun _ => ⟨h1, h3⟩, fun _ => rfl⟩
      · intro _
        refine ⟨?_, rfl⟩
        simp only [vorbisdecops.is_port_settings_evt_required, decide_eq_true_eq]
      · exact fun h => absurd h1 h
      · exact fun _ h => absurd h3 h
    · refine ⟨_, set_vorbis_settings_set_fails E s p hp h1 h3, ?_, ?_, ?_, ?_⟩
      · exact ⟨fun h => absurd h h3, fun h => absurd h.2 h3⟩
      · exact fun h => absurd h h3
      · exact fun h => absurd h1 h
      · exact fun _ _ => ⟨rfl, rfl⟩
  · refine ⟨_, set_vorbis_settings_get_fails E s h1, ?_, ?_, ?_, ?_⟩
    · exact ⟨fun h => absurd h h1, fun h => absurd h.1 h1⟩
    · exact fun h => absurd h h1
    · exact fun _ => ⟨rfl, rfl⟩
    · exact fun h => absurd h h1

/-- Witness of C27: a probe of a 44.1 kHz stereo stream held, the decoder reporting
48 kHz stereo: the call returns `OMX_ErrorNone` and the event is required; and when
`OMX_SetParameter` fails, `OMX_ErrorBadParameter` is returned with the flag as it was. -/
theorem set_vorbis_settings_records_change_witness :
    graph_probed.ops.probe_ptr_ = some { uri_ := "a.ogg", quiet_ := true } ∧
    ((vorbisdecops.set_vorbis_settings genv_ok graph_probed).map
        (fun r => (r.1, vorbisdecops.is_port_settings_evt_required r.2.ops))
      = some (OMX_ErrorNone, true)) ∧
    ((vorbisdecops.set_vorbis_settings genv_set_fails graph_probed).map
        (fun r => (r.1, r.2.ops)) = some (OMX_ErrorBadParameter, graph_probed.ops)) ∧
    (∃ r, vorbisdecops.set_vorbis_settings genv_set_fails graph_probed = some r ∧
      r.1 = OMX_ErrorBadParameter ∧ r.2.ops = graph_probed.ops) :=
  ⟨rfl, rfl, rfl,
    (((set_vorbis_settings_records_change genv_set_fails graph_probed).2
        { uri_ := "a.ogg", quiet_ := true } rfl).elim
      fun r h => ⟨r, h.1, (h.2.2.2.2 rfl (by decide)).1, (h.2.2.2.2 rfl (by decide)).2⟩)⟩

theorem lexical_cast_nat (n : Nat) : lexical_cast (n : Int) = Nat.repr n := rfl

theorem get_current_track_duration_nat (d : Nat) (o : tizdeezer) :
    tizdeezer.get_current_track_duration (d : Int) o
      = (((d / 1000 % 60 : Nat) : Int),
        { o with
          current_duration_ := o.current_duration_ ++
            ((if d / 1000 / 3600 > 0 then Nat.repr (d / 1000 / 3600) ++ "h:" else "") ++
              (if d / 1000 / 60 % 60 > 0 then Nat.repr (d / 1000 / 60 % 60) ++ "m:"
                else "")) }) := by
  by_cases h0 : d = 0
  · subst h0
    simp [tizdeezer.get_current_track_duration]
  · have e1 : ((d : Int)).tdiv 1000 = ((d / 1000 : Nat) : Int) := rfl
    have e2 : ((d / 1000 : Nat) : Int).tmod 60 = ((d / 1000 % 60 : Nat) : Int) := rfl
    have e3 : (((d / 1000 : Nat) : Int) - ((d / 1000 % 60 : Nat) : Int)).tdiv 60
        = ((d / 1000 / 60 : Nat) : Int) := by
      rw [Int.tdiv_eq_ediv (by omega) (by omega)]
      omega
    have e4 : ((d / 1000 / 60 : Nat) : Int).tmod 60 = ((d / 1000 / 60 % 60 : Nat) : Int) := rfl
    have e5 : (((d / 1000 / 60 : Nat) : Int) - ((d / 1000 / 60 % 60 : Nat) : Int)).tdiv 60
        = ((d / 1000 / 3600 : Nat) : Int) := by
      rw [Int.tdiv_eq_ediv (by omega) (by omega)]
      omega
    have h0i : (d : Int) ≠ 0 := by omega
    simp only [tizdeezer.get_current_track_duration, h0i, ne_eq, not_false_eq_true, if_true,
      e1, e2, e3, e4]
    by_cases hm : d / 1000 / 60 ≥ 60
    · have hge : ((d / 1000 / 60 : Nat) : Int) ≥ 60 := by omega
      have hh : d / 1000 / 3600 > 0 := by omega
      have hhi : ((d / 1000 / 3600 : Nat) : Int) > 0 := by omega
      simp only [hge, if_true, e5, hh, hhi, lexical_cast_nat]
      by_cases hmm : d / 1000 / 60 % 60 > 0
      · have hmi : ((d / 1000 / 60 % 60 : Nat) : Int) > 0 := by omega
        simp only [hmm, hmi, if_true, String.append_assoc]
      · have hmi : ¬ ((d / 1000 / 60 % 60 : Nat) : Int) > 0 := by omega
        simp only [hmm, hmi, if_false, String.append_assoc, String.append_empty]
    · have hge : ¬ ((d / 1000 / 60 : Nat) : Int) ≥ 60 := by omega
      have hh : ¬ d / 1000 / 3600 > 0 := by omega
      have hhi : ¬ (0 : Int) > 0 := by omega
      have e6 : d / 1000 / 60 % 60 = d / 1000 / 60 := by omega
      simp only [hge, if_false, hh, hhi, lexical_cast_nat, e6]
      by_cases hmm : d / 1000 / 60 > 0
      · have hmi : ((d / 1000 / 60 : Nat) : Int) > 0 := by omega
        simp only [hmm, hmi, if_true, String.append_assoc, String.empty_append]
      · have hmi : ¬ ((d / 1000 / 60 : Nat) : Int) > 0 := by omega
        simp only [hmm, hmi, if_false, String.append_assoc, String.append_empty]

theorem sprintf_02i_two_digits : ∀ s : Fin 60, sprintf_02i (s.val : Int) = two_digits s.val := by
  decide

theorem get_current_track_duration_text (py : tizdeezerproxy) (o : tizdeezer) (d : Nat)
    (hd : py.current_track_duration = (d : Int)) :
    ∃ r, tizdeezer.get_current_track py o = some r ∧
      r.2.current_duration_ = duration_text d := by
  have es : sprintf_02i ((d / 1000 % 60 : Nat) : Int) = two_digits (d / 1000 % 60) :=
    sprintf_02i_two_digits ⟨d / 1000 % 60, Nat.mod_lt _ (by decide)⟩
  have el : ¬ 3 < (two_digits (d / 1000 % 60)).length + 1 := Nat.lt_irrefl 3
  simp only [tizdeezer.get_current_track, hd, get_current_track_duration_nat, es, el, if_false]
  refine ⟨_, rfl, ?_⟩
  cases py.current_track_permalink <;> cases py.current_track_license <;>
    simp only [duration_text, String.empty_append, String.append_assoc, Nat.div_div_eq_div_mul]

set_option maxRecDepth 100000 in
theorem repr_digits : ∀ n : Fin 600,
    ((Nat.repr n.val).data.all (fun c => decide (48 ≤ c.toNat ∧ c.toNat ≤ 57)) = true) ∧
      (Nat.repr n.val).data.foldl digit_step 0 = n.val := by
  decide

theorem two_digits_digits : ∀ s : Fin 60,
    ((two_digits s.val).data.all (fun c => decide (48 ≤ c.toNat ∧ c.toNat ≤ 57)) = true) ∧
      (two_digits s.val).data.foldl digit_step 0 = s.val := by
  decide

theorem decode_step_digits (l : List Char)
    (hl : l.all (fun c => decide (48 ≤ c.toNat ∧ c.toNat ≤ 57)) = true) (a c : Nat) :
    l.foldl decode_step (a, c) = (a, l.foldl digit_step c) := by
  induction l generalizing c with
  | nil => rfl
  | cons x xs ih =>
    simp only [List.all_cons, Bool.and_eq_true, decide_eq_true_eq] at hl
    simp only [List.foldl_cons, decode_step, hl.1, and_self, if_true]
    exact ih hl.2 _

theorem decode_hours (a n : Nat) (hn : n < 600) :
    (if n > 0 then Nat.repr n ++ "h:" else "").data.foldl decode_step (a, 0)
      = (a + n * 3600, 0) := by
  by_cases h : n > 0
  · simp only [h, if_true, String.data_append, List.foldl_append,
      decode_step_digits _ (repr_digits ⟨n, hn⟩).1, (repr_digits ⟨n, hn⟩).2]
    rfl
  · have e : n = 0 := by omega
    subst e
    rfl

theorem decode_minutes (a n : Nat) (hn : n < 60) :
    (if n > 0 then Nat.repr n ++ "m:" else "").data.foldl decode_step (a, 0)
      = (a + n * 60, 0) := by
  by_cases h : n > 0
  · simp only [h, if_true, String.data_append, List.foldl_append,
      decode_step_digits _ (repr_digits ⟨n, by omega⟩).1, (repr_digits ⟨n, by omega⟩).2]
    rfl
  · have e : n = 0 := by omega
    subst e
    rfl

theorem decode_seconds (a n : Nat) (hn : n < 60) :
    (two_digits n ++ "s").data.foldl decode_step (a, 0) = (a + n, 0) := by
  simp only [String.data_append, List.foldl_append,
    decode_step_digits _ (two_digits_digits ⟨n, hn⟩).1, (two_digits_digits ⟨n, hn⟩).2]
  rfl

theorem decode_duration_text (d : Nat) (hd : d < 2 ^ 31) :
    decode_duration (duration_text d) = d / 1000 := by
  have hh : d / 1000 / 3600 < 600 := by omega
  have hm : d / 1000 / 60 % 60 < 60 := Nat.mod_lt _ (by decide)
  have hs : d / 1000 % 60 < 60 := Nat.mod_lt _ (by decide)
  simp only [decode_duration, duration_text, String.append_assoc]
  rw [String.data_append, List.foldl_append, decode_hours _ _ hh,
    String.data_append, List.foldl_append, decode_minutes _ _ hm, decode_seconds _ _ hs]
  show 0 + d / 1000 / 3600 * 3600 + d / 1000 / 60 % 60 * 60 + d / 1000 % 60 = d / 1000
  omega

/-- C22: for every duration `d` with `0 ≤ d < 2^31` milliseconds, `get_current_track`
returns and `current_duration_` is the text of the specification: with `t = d div 1000`,
`h = t div 3600`, `m = (t div 60) mod 60` and `s = t mod 60`, where
`h*3600 + m*60 + s = t`, `m ≤ 59` and `s ≤ 59`, the concatenation of `<h>h:` if `h > 0`,
`<m>m:` if `m > 0`, the two-digit zero-padded `s`, and `s`; and two durations give the
same text exactly when they have the same whole number of seconds. -/
theorem get_current_track_formats_duration (py1 py2 : tizdeezerproxy) (o1 o2 : tizdeezer)
    (d1 d2 : Nat) (h1 : py1.current_track_duration = (d1 : Int))
    (h2 : py2.current_track_duration = (d2 : Int)) (r1 : d1 < 2 ^ 31) (r2 : d2 < 2 ^ 31) :
    (∃ r, tizdeezer.get_current_track py1 o1 = some r ∧
      r.2.current_duration_ = duration_text d1) ∧
    (d1 / 1000 / 3600 * 3600 + d1 / 1000 / 60 % 60 * 60 + d1 / 1000 % 60 = d1 / 1000 ∧
      d1 / 1000 / 60 % 60 ≤ 59 ∧ d1 / 1000 % 60 ≤ 59) ∧
    ((tizdeezer.get_current_track py1 o1).map (fun r => r.2.current_duration_)
        = (tizdeezer.get_current_track py2 o2).map (fun r => r.2.current_duration_)
      ↔ d1 / 1000 = d2 / 1000) := by
  obtain ⟨q1, e1, t1⟩ := get_current_track_duration_text py1 o1 d1 h1
  obtain ⟨q2, e2, t2⟩ := get_current_track_duration_text py2 o2 d2 h2
  refine ⟨⟨q1, e1, t1⟩, by omega, ?_⟩
  rw [e1, e2]
  simp only [Option.map_some', Option.some.injEq, t1, t2]
  constructor
  · intro h
    have hd := congrArg decode_duration h
    rwa [decode_duration_text d1 r1, decode_duration_text d2 r2] at hd
  · intro h
    simp only [duration_text, h]

/-- Witness of C22: durations of 3725000 ms and 3725999 ms both give `1h:2m:05s`. -/
theorem get_current_track_formats_duration_witness :
    ((∃ r, tizdeezer.get_current_track (proxy_with_duration 3725000) tizdeezer_initial
        = some r ∧ r.2.current_duration_ = duration_text 3725000) ∧
      (3725000 / 1000 / 3600 * 3600 + 3725000 / 1000 / 60 % 60 * 60 + 3725000 / 1000 % 60
          = 3725000 / 1000 ∧
        3725000 / 1000 / 60 % 60 ≤ 59 ∧ 3725000 / 1000 % 60 ≤ 59) ∧
      ((tizdeezer.get_current_track (proxy_with_duration 3725000) tizdeezer_initial).map
            (fun r => r.2.current_duration_)
          = (tizdeezer.get_current_track (proxy_with_duration 3725999) tizdeezer_initial).map
            (fun r => r.2.current_duration_)
        ↔ 3725000 / 1000 = 3725999 / 1000)) ∧
    duration_text 3725000 = "1h:2m:05s" ∧
    (tizdeezer.get_current_track (proxy_with_duration 3725999) tizdeezer_initial).map
        (fun r => r.2.current_duration_) = some "1h:2m:05s" :=
  ⟨get_current_track_formats_duration (proxy_with_duration 3725000)
      (proxy_with_duration 3725999) tizdeezer_initial tizdeezer_initial 3725000 3725999 rfl rfl
      (by decide) (by decide),
    by decide, by decide⟩

/-- C23, the code at the failing input: for the duration -10000 ms, a 32-bit signed
value, `seconds` is -10, the text printed with `%02i` is `-10`, of three characters, and
with the terminating zero `sprintf` writes four bytes into the three bytes of
`seconds_str`. -/
theorem get_current_track_seconds_overrun :
    INT_MIN ≤ -10000 ∧ (-10000 : Int) ≤ INT_MAX ∧
      (tizdeezer.get_current_track_duration (-10000) tizdeezer_initial).1 = -10 ∧
      sprintf_02i (-10) = "-10" ∧
      (sprintf_02i (-10)).length + 1 = 4 ∧
      tizdeezer.get_current_track (proxy_with_duration (-10000)) tizdeezer_initial = none := by
  refine ⟨by decide, by decide, by decide, by decide, by decide, by decide⟩

end Tizonia
